import Mathlib

/-!
Verification of the Liu Yao divination engine (`liu_yao.py`,
`old/wu_xing_utils.py`, `old/ba_zi_base.py`) against its natural-language
specification.

The Python sources are shallowly embedded: dictionaries become pattern
matches or association lists, classes become structures, and the
imperative pipeline of `six_yao_divination` becomes a composition of pure
list transformations.  Every definition in the first part of this file is
a direct transcription of the corresponding Python definition (same name
where possible); theorems follow.
-/

namespace LiuYao

/-! ## Basic calendrical tables (`wu_xing_utils.py`, `ba_zi_base.py`) -/

/-- The ten heavenly stems, in canonical order. -/
def TIANGAN_LIST : List String :=
  ["甲", "乙", "丙", "丁", "戊", "己", "庚", "辛", "壬", "癸"]

/-- The twelve earthly branches, in canonical order. -/
def DIZHI_LIST : List String :=
  ["子", "丑", "寅", "卯", "辰", "巳", "午", "未", "申", "酉", "戌", "亥"]

/-- The five elements in the generative order used by `fiveElementIndex`. -/
def FIVE_ELEMENTS_LIST : List String := ["金", "水", "木", "火", "土"]

/-- `branchFiveElements` dict: earthly branch to its five-element. -/
def branchFiveElements : String → Option String
  | "子" => some "水" | "丑" => some "土" | "寅" => some "木" | "卯" => some "木"
  | "辰" => some "土" | "巳" => some "火" | "午" => some "火" | "未" => some "土"
  | "申" => some "金" | "酉" => some "金" | "戌" => some "土" | "亥" => some "水"
  | _ => none

/-- `fiveElementIndex` dict: 金=0, 水=1, 木=2, 火=3, 土=4. -/
def fiveElementIndex : String → Option Nat
  | "金" => some 0 | "水" => some 1 | "木" => some 2 | "火" => some 3 | "土" => some 4
  | _ => none

/-- The proximity-override block of `getWangShuai`: with a provided valid
line branch, branch identity with the month gives 臨月 and element
identity gives 月扶; otherwise no override. -/
def wangShuaiProximity (monthBranch monthElement : String) (lineBranch : Option String) :
    Option String :=
  match lineBranch with
  | some lb =>
    match branchFiveElements lb with
    | some lineBranchElement =>
      if monthBranch = lb then some "臨月"
      else if lineBranchElement = monthElement then some "月扶"
      else none
    | none => none
  | none => none

/-- The generic five-phase comparison block of `getWangShuai`. -/
def wangShuaiGeneric (lineIdx monthIdx : Nat) : String :=
  if lineIdx = monthIdx then "月扶"
  else if lineIdx = (monthIdx + 4) % 5 then "休"
  else if lineIdx = (monthIdx + 1) % 5 then "月生"
  else if lineIdx = (monthIdx + 2) % 5 then "月克"
  else if lineIdx = (monthIdx + 3) % 5 then "囚"
  else "未知"

/-- `getWangShuai(lineElement, monthBranch, lineBranch=None)` from
`wu_xing_utils.py`: month-relative strength of a line.  Invalid inputs
yield `"未知"`; a provided valid line branch first triggers the proximity
checks `臨月` / `月扶`, otherwise the five-phase index comparison runs. -/
def getWangShuai (lineElement monthBranch : String)
    (lineBranch : Option String := none) : String :=
  match branchFiveElements monthBranch, fiveElementIndex lineElement with
  | some monthElement, some lineIdx =>
    match fiveElementIndex monthElement with
    | some monthIdx =>
      match wangShuaiProximity monthBranch monthElement lineBranch with
      | some r => r
      | none => wangShuaiGeneric lineIdx monthIdx
    | none => "未知"
  | _, _ => "未知"

/-- `checkLinRiRiFu(lineBranch, dayBranch)`: (臨日, 日扶). -/
def checkLinRiRiFu (lineBranch dayBranch : Option String) : Bool × Bool :=
  match lineBranch, dayBranch with
  | some lb, some db =>
    match branchFiveElements lb, branchFiveElements db with
    | some lbe, some dbe =>
      if db = lb then (true, false)
      else if lbe = dbe then (false, true)
      else (false, false)
    | _, _ => (false, false)
  | _, _ => (false, false)

/-- `checkRiShengRiKe(lineElement, dayBranch)`: (日生, 日克). -/
def checkRiShengRiKe (lineElement dayBranch : Option String) : Bool × Bool :=
  match lineElement, dayBranch with
  | some le, some db =>
    match fiveElementIndex le, branchFiveElements db with
    | some lineIdx, some de =>
      match fiveElementIndex de with
      | some dayIdx =>
        if lineIdx = (dayIdx + 1) % 5 then (true, false)
        else if lineIdx = (dayIdx + 2) % 5 then (false, true)
        else (false, false)
      | none => (false, false)
    | _, _ => (false, false)
  | _, _ => (false, false)

/-! ## Pillars and BaZi (`ba_zi_base.py`) -/

/-- `Pillar`: a heavenly-stem / earthly-branch pair. -/
structure Pillar where
  stem : String
  branch : String
deriving DecidableEq, Repr

/-- `Pillar.to_string`. -/
def Pillar.to_string (p : Pillar) : String := p.stem ++ p.branch

/-- `BaZi`: the four pillars plus the two void (旬空) branches. -/
structure BaZi where
  year : Pillar
  month : Pillar
  day : Pillar
  hour : Pillar
  xun_kong_1 : String := ""
  xun_kong_2 : String := ""
deriving DecidableEq, Repr

/-- `BaZi.calculate_xun_kong(day_pillar)`: the two void branches of the day
pillar's decan, by the decan-offset arithmetic of the source.  (The source
uses `list.index`, which presupposes a valid pillar; `List.indexOf` is its
total counterpart.) -/
def calculate_xun_kong (day_pillar : Pillar) : String × String :=
  let stems := TIANGAN_LIST
  let branches := DIZHI_LIST
  let stem_idx : Int := Int.ofNat (stems.indexOf day_pillar.stem)
  let branch_idx : Int := Int.ofNat (branches.indexOf day_pillar.branch)
  let xun_start_branch_idx := (branch_idx - stem_idx) % 12
  let xun_start_branch_idx :=
    if xun_start_branch_idx < 0 then xun_start_branch_idx + 12 else xun_start_branch_idx
  let kong1_idx := (xun_start_branch_idx + 10) % 12
  let kong2_idx := (xun_start_branch_idx + 11) % 12
  (branches.getD kong1_idx.toNat "", branches.getD kong2_idx.toNat "")

/-! ## Clash / combination tables and `get_he_type` (`liu_yao.py`) -/

/-- `_DIZHI_CHONG_MAP`: each branch's clash partner (six positions away). -/
def DIZHI_CHONG_MAP : String → Option String
  | "子" => some "午" | "丑" => some "未" | "寅" => some "申" | "卯" => some "酉"
  | "辰" => some "戌" | "巳" => some "亥" | "午" => some "子" | "未" => some "丑"
  | "申" => some "寅" | "酉" => some "卯" | "戌" => some "辰" | "亥" => some "巳"
  | _ => none

/-- `_DIZHI_HE_MAP`: each branch's combination partner. -/
def DIZHI_HE_MAP : String → Option String
  | "子" => some "丑" | "丑" => some "子" | "寅" => some "亥" | "亥" => some "寅"
  | "卯" => some "戌" | "戌" => some "卯" | "辰" => some "酉" | "酉" => some "辰"
  | "巳" => some "申" | "申" => some "巳" | "午" => some "未" | "未" => some "午"
  | _ => none

/-- 生合 pairs (month/day → line) of `get_he_type`. -/
def sheng_he_pairs : List (String × String) := [("午", "未"), ("辰", "酉"), ("亥", "寅")]

/-- 克合 pairs (month/day → line) of `get_he_type`. -/
def ke_he_pairs : List (String × String) := [("巳", "申"), ("卯", "戌"), ("丑", "子")]

/-- Standard 平合 pairs (month → line only) of `get_he_type`. -/
def ping_he_pairs : List (String × String) :=
  [("未", "午"), ("酉", "辰"), ("寅", "亥"), ("申", "巳"), ("戌", "卯"), ("子", "丑")]

/-- `get_he_type(month_or_day_branch, yao_branch, is_month)`: classify a
combination as 生合 / 克合 / 平合 (the latter month-side only, including
the 辰-month and 未-month special cases). -/
def get_he_type (month_or_day_branch yao_branch : String) (is_month : Bool := true) :
    Option String :=
  if (branchFiveElements month_or_day_branch).isNone ∨ (branchFiveElements yao_branch).isNone
  then none
  else if sheng_he_pairs.any (fun p => p.1 == month_or_day_branch && p.2 == yao_branch) then
    some "生合"
  else if ke_he_pairs.any (fun p => p.1 == month_or_day_branch && p.2 == yao_branch) then
    some "克合"
  else if is_month then
    if ping_he_pairs.any (fun p => p.1 == month_or_day_branch && p.2 == yao_branch) then
      some "平合"
    else if month_or_day_branch = "辰" ∧ (yao_branch = "寅" ∨ yao_branch = "卯") then
      some "平合"
    else if month_or_day_branch = "未" ∧ (yao_branch = "巳" ∨ yao_branch = "午") then
      some "平合"
    else none
  else none

/-! ## Kinship and transformation helpers (`liu_yao.py`) -/

/-- `RELATIVE_NAMES`: the five kinship roles, indexed by the five-phase
distance from the palace element. -/
def RELATIVE_NAMES : List String := ["兄弟", "子孫", "妻財", "官鬼", "父母"]

/-- `get_relative(palace_element, yao_element)`: the kinship role from the
circular five-element distance `(yao_idx - palace_idx + 5) % 5`. -/
def get_relative (palace_element yao_element : String) : String :=
  if palace_element = "" ∨ yao_element = "" then "錯誤"
  else
    match fiveElementIndex palace_element, fiveElementIndex yao_element with
    | some palace_idx, some yao_idx =>
      if palace_element = yao_element then RELATIVE_NAMES.getD 0 "錯誤"
      else RELATIVE_NAMES.getD ((yao_idx + 5 - palace_idx) % 5) "錯誤"
    | _, _ => "錯誤"

/-- `check_hua_jin_tui(main_branch, changed_branch)`: 化進神 / 化退神. -/
def check_hua_jin_tui (main_branch changed_branch : String) : Option String :=
  let hua_jin : String → Option String
    | "寅" => some "卯" | "申" => some "酉" | "未" => some "戌" | "丑" => some "辰"
    | _ => none
  let hua_tui : String → Option String
    | "卯" => some "寅" | "酉" => some "申" | "戌" => some "未" | "辰" => some "丑"
    | _ => none
  match hua_jin main_branch with
  | some b => if changed_branch = b then some "化進神" else
      match hua_tui main_branch with
      | some b2 => if changed_branch = b2 then some "化退神" else none
      | none => none
  | none =>
    match hua_tui main_branch with
    | some b2 => if changed_branch = b2 then some "化退神" else none
    | none => none

/-- `check_hui_tou_sheng_ke(main_element, changed_element)`: 回頭生 / 回頭克
from the five-phase distance `(main_idx - changed_idx + 5) % 5`. -/
def check_hui_tou_sheng_ke (main_element changed_element : String) : Option String :=
  if main_element = "" ∨ changed_element = "" then none
  else
    match fiveElementIndex main_element, fiveElementIndex changed_element with
    | some main_idx, some changed_idx =>
      let diff := (main_idx + 5 - changed_idx) % 5
      if diff = 1 then some "回頭生"
      else if diff = 2 then some "回頭克"
      else none
    | _, _ => none

/-! ## Theorems for claims C3, C6, C8, C9 -/

/-- Branch with index `i` (helper for quantifying over the 12 branches). -/
def dz (i : Fin 12) : String := DIZHI_LIST.getD i.1 ""

/-- The five tags of claim C3, as a function of the circular distance
`d = (line_element_index - month_element_index + 5) % 5`. -/
def wang_shuai_claim_tag (d : Nat) : String :=
  if d = 0 then "月扶"
  else if d = 4 then "休"
  else if d = 1 then "月生"
  else if d = 2 then "月克"
  else if d = 3 then "囚"
  else "未知"

/-- Index of the month branch's element. -/
def month_element_index (m : String) : Option Nat :=
  (branchFiveElements m).bind fiveElementIndex

/-- If the optional line branch is distinct from the month branch and has a
different element, `getWangShuai` skips the proximity overrides. -/
theorem getWangShuai_skip_proximity (e m s : String)
    (h1 : s ≠ m) (h2 : branchFiveElements s ≠ branchFiveElements m) :
    getWangShuai e m (some s) = getWangShuai e m none := by
  have key : ∀ me, branchFiveElements m = some me →
      wangShuaiProximity m me (some s) = none := by
    intro me hbm
    have hms : ¬ (m = s) := fun h => h1 h.symm
    rcases hbs : branchFiveElements s with _ | lbe
    · simp only [wangShuaiProximity, hbs]
    · have hlbe : ¬ (lbe = me) := by
        intro h
        exact h2 (by rw [hbs, hbm, h])
      simp only [wangShuaiProximity, hbs, hms, if_false, hlbe]
  unfold getWangShuai
  rcases hbm : branchFiveElements m with _ | me
  · rfl
  · rcases hfe : fiveElementIndex e with _ | li
    · rfl
    · rcases hme : fiveElementIndex me with _ | mi
      · simp only [hme]
      · simp only [hme, key me hbm]
        rfl

/-- Claim C3: for a valid line element and month branch with neither
proximity override applicable, `getWangShuai` returns exactly the tag
determined by the circular distance `(line_idx - month_idx + 5) % 5`
(0 ↦ 月扶, 4 ↦ 休, 1 ↦ 月生, 2 ↦ 月克, 3 ↦ 囚), and never `"未知"`. -/
theorem getWangShuai_five_way_partition (e m : String) (lb : Option String)
    (he : e ∈ FIVE_ELEMENTS_LIST) (hm : m ∈ DIZHI_LIST)
    (hlb : ∀ s, lb = some s → s ≠ m ∧ branchFiveElements s ≠ branchFiveElements m) :
    getWangShuai e m lb =
      wang_shuai_claim_tag
        (((fiveElementIndex e).getD 0 + 5 - (month_element_index m).getD 0) % 5) ∧
    getWangShuai e m lb ≠ "未知" := by
  rcases lb with _ | s
  · fin_cases he <;> fin_cases hm <;> exact ⟨by decide, by decide⟩
  · obtain ⟨h1, h2⟩ := hlb s rfl
    rw [getWangShuai_skip_proximity e m s h1 h2]
    fin_cases he <;> fin_cases hm <;> exact ⟨by decide, by decide⟩

/-- Witness for C3: element 金 in month 子 with line branch 寅 (distance 4,
tag 休). -/
theorem getWangShuai_five_way_partition_witness :
    getWangShuai "金" "子" (some "寅") =
      wang_shuai_claim_tag
        (((fiveElementIndex "金").getD 0 + 5 - (month_element_index "子").getD 0) % 5) ∧
    getWangShuai "金" "子" (some "寅") ≠ "未知" :=
  getWangShuai_five_way_partition "金" "子" (some "寅") (by decide) (by decide)
    (fun s hs => by cases hs; exact ⟨by decide, by decide⟩)

/-- The month-side 平合 pairs enumerated by claim C6: the six standard
reverse-direction pairs plus the 辰-month and 未-month special cases. -/
def c6_ping_he_claim_pairs : List (String × String) :=
  [("未", "午"), ("酉", "辰"), ("寅", "亥"), ("申", "巳"), ("戌", "卯"), ("子", "丑"),
   ("辰", "寅"), ("辰", "卯"), ("未", "巳"), ("未", "午")]

/-- Claim C6: day-side `get_he_type` only ever yields 生合, 克合 or nothing
(never 平合), while month-side `get_he_type` yields 平合 exactly for the six
standard reverse-direction pairs and the 辰/未-month special cases. -/
theorem get_he_type_ping_he_only_month :
    (∀ i j : Fin 12,
      get_he_type (dz i) (dz j) false = some "生合" ∨
      get_he_type (dz i) (dz j) false = some "克合" ∨
      get_he_type (dz i) (dz j) false = none) ∧
    (∀ i j : Fin 12,
      get_he_type (dz i) (dz j) true = some "平合" ↔
        (dz i, dz j) ∈ c6_ping_he_claim_pairs) := by
  constructor
  · decide
  · decide

/-- Claim C8: the clash table maps each branch to the branch six positions
onward, both tables are involutions on the twelve branches, and the two
pairings never coincide. -/
theorem chong_he_involutions :
    (∀ i : Fin 12, DIZHI_CHONG_MAP (dz i) = some (dz (i + 6))) ∧
    (∀ i : Fin 12, (DIZHI_CHONG_MAP (dz i)).bind DIZHI_CHONG_MAP = some (dz i)) ∧
    (∀ i : Fin 12, (DIZHI_HE_MAP (dz i)).bind DIZHI_HE_MAP = some (dz i)) ∧
    (∀ i : Fin 12, DIZHI_HE_MAP (dz i) ≠ DIZHI_CHONG_MAP (dz i)) := by
  refine ⟨?_, ?_, ?_, ?_⟩ <;> decide

/-- The `k`-th pillar of the sexagenary cycle. -/
def sexagenary_pillar (k : Fin 60) : Pillar :=
  ⟨TIANGAN_LIST.getD (k.1 % 10) "", DIZHI_LIST.getD (k.1 % 12) ""⟩

/-- The branches occupied by the decan (ten-pillar group) containing the
`k`-th sexagenary pillar. -/
def decan_branches (k : Fin 60) : List String :=
  (List.range 10).map (fun j => DIZHI_LIST.getD ((k.1 / 10 * 10 + j) % 12) "")

/-- Claim C9: `calculate_xun_kong` returns exactly the two branches missing
from the day pillar's decan; in particular 甲子 ↦ (戌, 亥) and
甲戌 ↦ (申, 酉). -/
theorem calculate_xun_kong_decan_voids :
    (∀ k : Fin 60, ∀ j : Fin 12,
      (dz j ∉ decan_branches k ↔
        (dz j = (calculate_xun_kong (sexagenary_pillar k)).1 ∨
         dz j = (calculate_xun_kong (sexagenary_pillar k)).2))) ∧
    (∀ k : Fin 60,
      (calculate_xun_kong (sexagenary_pillar k)).1 ≠
        (calculate_xun_kong (sexagenary_pillar k)).2) ∧
    calculate_xun_kong ⟨"甲", "子"⟩ = ("戌", "亥") ∧
    calculate_xun_kong ⟨"甲", "戌"⟩ = ("申", "酉") := by
  refine ⟨?_, ?_, ?_, ?_⟩ <;> decide

/-! ## `YaoDetails` and its JSON serialization (`liu_yao.py`) -/

/-- `YaoDetails`: per-line record of one divination run. -/
structure YaoDetails where
  position : Nat
  main_pillar : Option Pillar := none
  main_element : String := ""
  main_relative : String := ""
  hidden_pillar : Option Pillar := none
  hidden_relative : String := ""
  hidden_element : String := ""
  is_changing : Bool := false
  changed_pillar : Option Pillar := none
  changed_element : String := ""
  changed_relative : String := ""
  spirit : String := ""
  wang_shuai : String := ""
  shi_ying_mark : String := " "
  main_yao_type : Char := '0'
  change_mark : String := " "
  xun_kong : Bool := false
  yue_peng : Bool := false
  ri_chong : Bool := false
  yue_he : Option String := none
  ri_he : Option String := none
  lin_ri : Bool := false
  ri_fu : Bool := false
  ri_sheng : Bool := false
  ri_ke : Bool := false
  an_dong : Bool := false
  ri_peng : Bool := false
  shen_sha_markers : List String := []
  changed_xun_kong : Bool := false
  changed_yue_peng : Bool := false
  changed_ri_peng : Bool := false
  changed_ri_chong : Bool := false
  changed_yue_he : Option String := none
  changed_ri_he : Option String := none
  changed_lin_ri : Bool := false
  changed_ri_fu : Bool := false
  changed_ri_sheng : Bool := false
  changed_ri_ke : Bool := false
  changed_an_dong : Bool := false
deriving DecidableEq, Repr

/-- Values appearing in the `to_dict` serialization of a `YaoDetails`. -/
inductive PyVal where
  | str (v : String)
  | bool (v : Bool)
  | nat (v : Nat)
  | strs (v : List String)
deriving DecidableEq, Repr

/-- Python `d[k] = v`: replace the value in place if the key exists,
otherwise append the pair. -/
def pyDictInsert (d : List (String × PyVal)) (k : String) (v : PyVal) :
    List (String × PyVal) :=
  if d.any (fun e => e.1 == k) then d.map (fun e => if e.1 == k then (e.1, v) else e)
  else d ++ [(k, v)]

/-- Python dict-literal semantics: entries are inserted left to right, a
repeated key keeps its first position but takes the last value. -/
def pyDictOfEntries (l : List (String × PyVal)) : List (String × PyVal) :=
  l.foldl (fun d e => pyDictInsert d e.1 e.2) []

/-- Python `d.get(k)` on the finalized dict. -/
def pyLookup (d : List (String × PyVal)) (k : String) : Option PyVal :=
  (d.find? (fun e => e.1 == k)).map (fun e => e.2)

/-- String rendering of an optional pillar (`x.to_string() if x else ""`). -/
def pillarStr : Option Pillar → String
  | some p => p.to_string
  | none => ""

/-- Python truthiness of an optional combination type
(`self.yue_he if self.yue_he else False`). -/
def heVal : Option String → PyVal
  | some s => if s = "" then PyVal.bool false else PyVal.str s
  | none => PyVal.bool false

/-- `YaoDetails.to_dict`: the dict literal of the source in entry order,
including its duplicated `"riPeng"` key (first from `ri_chong`, later from
`ri_peng`), finalized with Python dict-literal semantics. -/
def YaoDetails.to_dict (y : YaoDetails) : List (String × PyVal) :=
  pyDictOfEntries
    [("position", PyVal.nat y.position),
     ("mainPillar", PyVal.str (pillarStr y.main_pillar)),
     ("mainElement", PyVal.str y.main_element),
     ("mainRelative", PyVal.str y.main_relative),
     ("hiddenPillar", PyVal.str (pillarStr y.hidden_pillar)),
     ("hiddenRelative", PyVal.str y.hidden_relative),
     ("hiddenElement", PyVal.str y.hidden_element),
     ("isChanging", PyVal.bool y.is_changing),
     ("changedPillar", PyVal.str (pillarStr y.changed_pillar)),
     ("changedElement", PyVal.str y.changed_element),
     ("changedRelative", PyVal.str y.changed_relative),
     ("spirit", PyVal.str y.spirit),
     ("wangShuai", PyVal.str y.wang_shuai),
     ("shiYingMark", PyVal.str y.shi_ying_mark),
     ("mainYaoType", PyVal.str (String.mk [y.main_yao_type])),
     ("changeMark", PyVal.str y.change_mark),
     ("xunKong", PyVal.bool y.xun_kong),
     ("yuePeng", PyVal.bool y.yue_peng),
     ("riPeng", PyVal.bool y.ri_chong),
     ("yueHe", heVal y.yue_he),
     ("riHe", heVal y.ri_he),
     ("linRi", PyVal.bool y.lin_ri),
     ("riFu", PyVal.bool y.ri_fu),
     ("riSheng", PyVal.bool y.ri_sheng),
     ("riKe", PyVal.bool y.ri_ke),
     ("anDong", PyVal.bool y.an_dong),
     ("riPeng", PyVal.bool y.ri_peng),
     ("shenShaMarkers", PyVal.strs y.shen_sha_markers)]

/-- Claim C10: `to_dict` carries exactly one `"riPeng"` key, whose value is
the `ri_peng` field (the earlier entry built from `ri_chong` is overwritten
by dict-literal semantics), and the dictionary does not depend on
`ri_chong` at all. -/
theorem to_dict_riPeng_shadows_ri_chong (y : YaoDetails) (b : Bool) :
    pyLookup y.to_dict "riPeng" = some (PyVal.bool y.ri_peng) ∧
    (y.to_dict.filter (fun e => e.1 == "riPeng")).length = 1 ∧
    YaoDetails.to_dict { y with ri_chong := b } = y.to_dict := by
  refine ⟨?_, ?_, ?_⟩ <;>
    simp [YaoDetails.to_dict, pyDictOfEntries, pyDictInsert, pyLookup]

/-! ## Hexagram catalog and palace tables (`liu_yao.py`) -/

/-- `HexagramInfo`: static metadata of one of the 64 hexagrams. -/
structure HexagramInfo where
  name : String
  meaning : String
  five_element : String
  shi_yao_position : Nat
  ying_yao_position : Nat
  is_yang_hexagram : Bool
  palace_type : String
  inner_hexagram : String
  outer_hexagram : String
  structure_type : String := ""
deriving DecidableEq, Repr

/-- `HEXAGRAM_MAP`: the 64-entry catalog, keyed by the 6-bit code
(bit i = line i+1, bottom to top). -/
def HEXAGRAM_MAP : List (String × HexagramInfo) :=
  [("111111", ⟨"乾為天", "剛健中正", "金", 6, 3, true, "乾", "乾", "乾", "本宮(六沖)"⟩),
   ("011111", ⟨"天風姤", "陰陽相遇", "金", 1, 4, true, "乾", "巽", "乾", ""⟩),
   ("001111", ⟨"天山遁", "退避保全", "金", 2, 5, true, "乾", "艮", "乾", ""⟩),
   ("000111", ⟨"天地否", "閉塞不通", "金", 3, 6, true, "乾", "坤", "乾", "六合"⟩),
   ("000011", ⟨"風地觀", "觀察民情", "金", 4, 1, true, "乾", "坤", "巽", ""⟩),
   ("000001", ⟨"山地剝", "陰盛陽衰", "金", 5, 2, true, "乾", "坤", "艮", ""⟩),
   ("000101", ⟨"火地晉", "光明晉升", "金", 4, 1, true, "乾", "坤", "離", "游魂"⟩),
   ("111101", ⟨"火天大有", "昌隆富有", "金", 3, 6, true, "乾", "乾", "離", "歸魂"⟩),
   ("010010", ⟨"坎為水", "險陷重重", "水", 6, 3, true, "坎", "坎", "坎", "本宮(六沖)"⟩),
   ("110010", ⟨"水澤節", "節制有度", "水", 1, 4, true, "坎", "兌", "坎", "六合"⟩),
   ("100010", ⟨"水雷屯", "初生艱難", "水", 2, 5, true, "坎", "震", "坎", ""⟩),
   ("101010", ⟨"水火既濟", "事已完成", "水", 3, 6, true, "坎", "離", "坎", ""⟩),
   ("101110", ⟨"澤火革", "變革創新", "水", 4, 1, true, "坎", "離", "兌", ""⟩),
   ("101100", ⟨"雷火豐", "盛大光明", "水", 5, 2, true, "坎", "離", "震", ""⟩),
   ("101000", ⟨"地火明夷", "光明受傷", "水", 4, 1, true, "坎", "離", "坤", "游魂"⟩),
   ("010000", ⟨"地水師", "興師動眾", "水", 3, 6, true, "坎", "坤", "坎", "歸魂"⟩),
   ("001001", ⟨"艮為山", "靜止不動", "土", 6, 3, true, "艮", "艮", "艮", "本宮(六沖)"⟩),
   ("101001", ⟨"山火賁", "文飾美化", "土", 1, 4, true, "艮", "離", "艮", "六合"⟩),
   ("111001", ⟨"山天大畜", "積蓄力量", "土", 2, 5, true, "艮", "乾", "艮", ""⟩),
   ("110001", ⟨"山澤損", "減損之道", "土", 3, 6, true, "艮", "兌", "艮", ""⟩),
   ("110101", ⟨"火澤睽", "意見相左", "土", 4, 1, true, "艮", "兌", "離", ""⟩),
   ("110111", ⟨"天澤履", "謹慎行事", "土", 5, 2, true, "艮", "兌", "乾", ""⟩),
   ("110011", ⟨"風澤中孚", "誠信立身", "土", 4, 1, true, "艮", "兌", "巽", "游魂"⟩),
   ("001011", ⟨"風山漸", "循序漸進", "土", 3, 6, true, "艮", "艮", "巽", "歸魂"⟩),
   ("100100", ⟨"震為雷", "震動奮發", "木", 6, 3, true, "震", "震", "震", "本宮(六沖)"⟩),
   ("000100", ⟨"雷地豫", "安樂警惕", "木", 1, 4, true, "震", "坤", "震", "六合"⟩),
   ("010100", ⟨"雷水解", "解除困境", "木", 2, 5, true, "震", "坎", "震", ""⟩),
   ("011100", ⟨"雷風恒", "恒久之道", "木", 3, 6, true, "震", "巽", "震", ""⟩),
   ("011000", ⟨"地風升", "步步高升", "木", 4, 1, true, "震", "巽", "坤", ""⟩),
   ("011010", ⟨"水風井", "滋養不窮", "木", 5, 2, true, "震", "巽", "坎", ""⟩),
   ("011110", ⟨"澤風大過", "非常行動", "木", 4, 1, true, "震", "巽", "兌", "游魂"⟩),
   ("100110", ⟨"澤雷隨", "隨從之道", "木", 3, 6, true, "震", "震", "兌", "歸魂"⟩),
   ("011011", ⟨"巽為風", "謙遜柔順", "木", 6, 3, false, "巽", "巽", "巽", "本宮(六沖)"⟩),
   ("111011", ⟨"風天小畜", "積蓄力量", "木", 1, 4, false, "巽", "乾", "巽", ""⟩),
   ("101011", ⟨"風火家人", "家庭倫理", "木", 2, 5, false, "巽", "離", "巽", ""⟩),
   ("100011", ⟨"風雷益", "增益之道", "木", 3, 6, false, "巽", "震", "巽", ""⟩),
   ("100111", ⟨"天雷無妄", "不可妄為", "木", 4, 1, false, "巽", "震", "乾", "六沖"⟩),
   ("100101", ⟨"火雷噬嗑", "排除障礙", "木", 5, 2, false, "巽", "震", "離", ""⟩),
   ("100001", ⟨"山雷頤", "頤養之道", "木", 4, 1, false, "巽", "震", "艮", "游魂"⟩),
   ("011001", ⟨"山風蠱", "整治腐敗", "木", 3, 6, false, "巽", "巽", "艮", "歸魂"⟩),
   ("101101", ⟨"離為火", "光明美麗", "火", 6, 3, false, "離", "離", "離", "本宮(六沖)"⟩),
   ("001101", ⟨"火山旅", "行旅之道", "火", 1, 4, false, "離", "艮", "離", "六合"⟩),
   ("011101", ⟨"火風鼎", "穩重圖新", "火", 2, 5, false, "離", "巽", "離", ""⟩),
   ("010101", ⟨"火水未濟", "事未完成", "火", 3, 6, false, "離", "坎", "離", ""⟩),
   ("010001", ⟨"山水蒙", "啟蒙教育", "火", 4, 1, false, "離", "坎", "艮", ""⟩),
   ("010011", ⟨"風水渙", "渙散分離", "火", 5, 2, false, "離", "巽", "坎", ""⟩),
   ("010111", ⟨"天水訟", "爭訟糾紛", "火", 4, 1, false, "離", "坎", "乾", "游魂"⟩),
   ("101111", ⟨"天火同人", "同心協力", "火", 3, 6, false, "離", "乾", "離", "歸魂"⟩),
   ("000000", ⟨"坤為地", "厚德載物", "土", 6, 3, false, "坤", "坤", "坤", "本宮(六沖)"⟩),
   ("100000", ⟨"地雷復", "陽氣復歸", "土", 1, 4, false, "坤", "震", "坤", "六合"⟩),
   ("110000", ⟨"地澤臨", "督導視察", "土", 2, 5, false, "坤", "兌", "坤", ""⟩),
   ("111000", ⟨"地天泰", "天地交泰", "土", 3, 6, false, "坤", "乾", "坤", "六合"⟩),
   ("111100", ⟨"雷天大壯", "強盛壯大", "土", 4, 1, false, "坤", "乾", "震", "六沖"⟩),
   ("111110", ⟨"澤天夬", "果斷決策", "土", 5, 2, false, "坤", "乾", "兌", ""⟩),
   ("111010", ⟨"水天需", "耐心等待", "土", 4, 1, false, "坤", "乾", "坎", "游魂"⟩),
   ("000010", ⟨"水地比", "親和依附", "土", 3, 6, false, "坤", "坤", "坎", "歸魂"⟩),
   ("110110", ⟨"兌為澤", "喜悅溝通", "金", 6, 3, false, "兌", "兌", "兌", "本宮(六沖)"⟩),
   ("010110", ⟨"澤水困", "困境求生", "金", 1, 4, false, "兌", "坎", "兌", "六合"⟩),
   ("000110", ⟨"澤地萃", "人才薈萃", "金", 2, 5, false, "兌", "坤", "兌", ""⟩),
   ("001110", ⟨"澤山咸", "感應相知", "金", 3, 6, false, "兌", "艮", "兌", ""⟩),
   ("001010", ⟨"水山蹇", "艱難險阻", "金", 4, 1, false, "兌", "艮", "坎", ""⟩),
   ("001000", ⟨"地山謙", "謙虛美德", "金", 5, 2, false, "兌", "艮", "坤", ""⟩),
   ("001100", ⟨"雷山小過", "小有過失", "金", 4, 1, false, "兌", "艮", "震", "游魂"⟩),
   ("110100", ⟨"雷澤歸妹", "婚嫁之道", "金", 3, 6, false, "兌", "震", "兌", "歸魂"⟩)]

/-- Dictionary lookup into `HEXAGRAM_MAP`. -/
def hexLookup (code : String) : Option HexagramInfo :=
  (HEXAGRAM_MAP.find? (fun e => e.1 == code)).map (fun e => e.2)

/-- `PALACE_BRANCH_PATTERNS`: fixed six-branch sequence per trigram.  The
source dict raises on unknown keys, which are unreachable; the fallback
returns `[]`. -/
def PALACE_BRANCH_PATTERNS : String → List String
  | "乾" => ["子", "寅", "辰", "午", "申", "戌"]
  | "坎" => ["寅", "辰", "午", "申", "戌", "子"]
  | "艮" => ["辰", "午", "申", "戌", "子", "寅"]
  | "震" => ["子", "寅", "辰", "午", "申", "戌"]
  | "巽" => ["丑", "亥", "酉", "未", "巳", "卯"]
  | "離" => ["卯", "丑", "亥", "酉", "未", "巳"]
  | "坤" => ["未", "巳", "卯", "丑", "亥", "酉"]
  | "兌" => ["巳", "卯", "丑", "亥", "酉", "未"]
  | _ => []

/-- `PALACE_STEM_PATTERNS`: fixed six-stem sequence per trigram. -/
def PALACE_STEM_PATTERNS : String → List String
  | "乾" => ["甲", "甲", "甲", "壬", "壬", "壬"]
  | "坎" => ["戊", "戊", "戊", "戊", "戊", "戊"]
  | "艮" => ["丙", "丙", "丙", "丙", "丙", "丙"]
  | "震" => ["庚", "庚", "庚", "庚", "庚", "庚"]
  | "巽" => ["辛", "辛", "辛", "辛", "辛", "辛"]
  | "離" => ["己", "己", "己", "己", "己", "己"]
  | "坤" => ["乙", "乙", "乙", "癸", "癸", "癸"]
  | "兌" => ["丁", "丁", "丁", "丁", "丁", "丁"]
  | _ => []

/-- `DAY_STEM_TO_SPIRIT_START`. -/
def DAY_STEM_TO_SPIRIT_START : String → Option Nat
  | "甲" => some 0 | "乙" => some 0 | "丙" => some 1 | "丁" => some 1 | "戊" => some 2
  | "己" => some 3 | "庚" => some 4 | "辛" => some 4 | "壬" => some 5 | "癸" => some 5
  | _ => none

/-- `SIX_SPIRITS`. -/
def SIX_SPIRITS : List String := ["青龍", "朱雀", "勾陳", "螣蛇", "白虎", "玄武"]

/-- `palace_code_map` of step 6: palace name to its base hexagram code. -/
def palace_code_map : String → Option String
  | "乾" => some "111111" | "坎" => some "010010" | "艮" => some "001001"
  | "震" => some "100100" | "巽" => some "011011" | "離" => some "101101"
  | "坤" => some "000000" | "兌" => some "110110"
  | _ => none

/-! ## Auxiliary-spirit tables and `build_shen_sha_map` (`liu_yao.py`) -/

/-- `_SHEN_SHA_YANG_REN_MAP` (羊刃, keyed by day stem). -/
def SHEN_SHA_YANG_REN_MAP : String → Option String
  | "甲" => some "卯" | "乙" => some "辰" | "丙" => some "午" | "丁" => some "未"
  | "戊" => some "午" | "己" => some "未" | "庚" => some "酉" | "辛" => some "戌"
  | "壬" => some "子" | "癸" => some "丑"
  | _ => none

/-- `_SHEN_SHA_TAO_HUA_MAP` (桃花, keyed by day branch). -/
def SHEN_SHA_TAO_HUA_MAP : String → Option String
  | "寅" => some "卯" | "午" => some "卯" | "戌" => some "卯"
  | "申" => some "酉" | "子" => some "酉" | "辰" => some "酉"
  | "亥" => some "子" | "卯" => some "子" | "未" => some "子"
  | "巳" => some "午" | "酉" => some "午" | "丑" => some "午"
  | _ => none

/-- `_SHEN_SHA_YI_MA_MAP` (驛馬, keyed by day branch). -/
def SHEN_SHA_YI_MA_MAP : String → Option String
  | "寅" => some "申" | "午" => some "申" | "戌" => some "申"
  | "申" => some "寅" | "子" => some "寅" | "辰" => some "寅"
  | "亥" => some "巳" | "卯" => some "巳" | "未" => some "巳"
  | "巳" => some "亥" | "酉" => some "亥" | "丑" => some "亥"
  | _ => none

/-- `_SHEN_SHA_GUI_REN_MAP` (貴人, keyed by day stem, two branches). -/
def SHEN_SHA_GUI_REN_MAP : String → Option (List String)
  | "甲" => some ["丑", "未"] | "戊" => some ["丑", "未"] | "庚" => some ["丑", "未"]
  | "乙" => some ["子", "申"] | "己" => some ["子", "申"]
  | "丙" => some ["亥", "酉"] | "丁" => some ["亥", "酉"]
  | "壬" => some ["巳", "卯"] | "癸" => some ["巳", "卯"]
  | "辛" => some ["午", "寅"]
  | _ => none

/-- `list.sort()` restricted to the two-element 貴人 lists of the source
(lexicographic by code point, as in Python). -/
def sortTwo (l : List String) : List String :=
  match l with
  | [a, b] => if a ≤ b then [a, b] else [b, a]
  | other => other

/-- `build_shen_sha_map(bazi)`: the insertion-ordered map of spirit
categories to triggering branches.  The source raises a `KeyError` when the
day stem or day branch misses one of the unconditional tables; that case is
`none` here.  (The memoization cache of the source is a pure-function
optimization and is not modelled.) -/
def build_shen_sha_map (bazi : BaZi) : Option (List (String × List String)) :=
  let day_stem := bazi.day.stem
  let day_branch := bazi.day.branch
  let month_branch := bazi.month.branch
  match SHEN_SHA_YANG_REN_MAP day_stem, SHEN_SHA_TAO_HUA_MAP day_branch,
      SHEN_SHA_YI_MA_MAP day_branch, SHEN_SHA_GUI_REN_MAP day_stem with
  | some yang_ren, some tao_hua, some yi_ma, some gui_ren =>
    some ([("月建", [month_branch]), ("日辰", [day_branch])]
      ++ (match DIZHI_CHONG_MAP month_branch with
          | some b => [("月破", [b])] | none => [])
      ++ (match DIZHI_HE_MAP month_branch with
          | some b => [("月合", [b])] | none => [])
      ++ (match DIZHI_CHONG_MAP day_branch with
          | some b => [("日沖", [b])] | none => [])
      ++ (match DIZHI_HE_MAP day_branch with
          | some b => [("日合", [b])] | none => [])
      ++ [("羊刃", [yang_ren]), ("桃花", [tao_hua]), ("驛馬", [yi_ma]),
          ("貴人", sortTwo gui_ren)])
  | _, _, _, _ => none

/-- `shen_sha_map.get(name, [])`. -/
def shenSaGet (m : List (String × List String)) (k : String) : List String :=
  match m.find? (fun e => e.1 == k) with
  | some e => e.2
  | none => []

/-! ## `check_san_he_ju` (`liu_yao.py`) -/

/-- Origin of a branch in the 三合局 source map
(`"本卦爻"`, `"变爻"`, `"日"`, `"月"`). -/
inductive SourceKind where
  | benGuaYao
  | bianYao
  | day
  | month
deriving DecidableEq, Repr

/-- One entry of `branch_sources`:
`{"source": …, "is_changing": …, "yao_index": …}`. -/
structure BranchSource where
  kind : SourceKind
  is_changing : Bool
  yao_index : Int
deriving DecidableEq, Repr

/-- The four triads and their center branches (中神). -/
def san_he_ju_groups : List (List String × String) :=
  [(["巳", "酉", "丑"], "酉"), (["申", "子", "辰"], "子"),
   (["亥", "卯", "未"], "卯"), (["寅", "午", "戌"], "午")]

/-- `branch_sources[k] = v` (dict assignment). -/
def mapInsert (m : String → Option BranchSource) (k : String) (v : BranchSource) :
    String → Option BranchSource :=
  fun x => if x = k then some v else m x

/-- First pass of `check_san_he_ju`: record each triad branch carried by a
main line that is changing or in hidden motion, first such line winning. -/
def addMainYaoSources (branches : List String) (liu_yao : List YaoDetails)
    (m : String → Option BranchSource) : String → Option BranchSource :=
  liu_yao.enum.foldl (fun m p =>
    match p.2.main_pillar with
    | some mp =>
      if mp.branch ∈ branches ∧ (p.2.is_changing ∨ p.2.an_dong) ∧ m mp.branch = none
      then mapInsert m mp.branch ⟨SourceKind.benGuaYao, p.2.is_changing, Int.ofNat p.1⟩
      else m
    | none => m) m

/-- Second pass: record each triad branch carried by the changed pillar of
a changing line, if that branch is not yet recorded. -/
def addBianYaoSources (branches : List String) (liu_yao : List YaoDetails)
    (m : String → Option BranchSource) : String → Option BranchSource :=
  liu_yao.enum.foldl (fun m p =>
    match p.2.changed_pillar with
    | some cp =>
      if p.2.is_changing ∧ cp.branch ∈ branches ∧ m cp.branch = none
      then mapInsert m cp.branch ⟨SourceKind.bianYao, true, Int.ofNat p.1⟩
      else m
    | none => m) m

/-- `branch_sources` of one triad: main lines, then changed lines, then day
and month branches (the latter two overwrite unconditionally). -/
def build_branch_sources (branches : List String) (liu_yao : List YaoDetails)
    (day_branch month_branch : String) : String → Option BranchSource :=
  let m := addMainYaoSources branches liu_yao (fun _ => none)
  let m := addBianYaoSources branches liu_yao m
  let m := if day_branch ∈ branches
    then mapInsert m day_branch ⟨SourceKind.day, true, -1⟩ else m
  if month_branch ∈ branches
    then mapInsert m month_branch ⟨SourceKind.month, true, -1⟩ else m

/-- The bounds-guarded recheck of `check_san_he_ju`: the continue fires
exactly when `0 ≤ yao_index < len` and that line is not changing. -/
def recheck_not_changing (liu_yao : List YaoDetails) (idx : Int) : Bool :=
  if 0 ≤ idx ∧ idx < Int.ofNat liu_yao.length then
    match liu_yao.get? idx.toNat with
    | some yao => ¬ yao.is_changing
    | none => false
  else false

/-- Per-triad body of `check_san_he_ju`.  Every key of `branch_sources`
lies in the triad's branch list, so the dict-size test `len == 3` is the
count of triad branches holding a recorded source. -/
def san_he_ju_triad (liu_yao : List YaoDetails) (day_branch month_branch : String)
    (branches : List String) (zhong_shen : String) : Option String :=
  let m := build_branch_sources branches liu_yao day_branch month_branch
  if (branches.filter (fun b => (m b).isSome)).length = 3 then
    match m zhong_shen with
    | none => none
    | some src =>
      if ¬ src.is_changing then none
      else if src.kind = SourceKind.bianYao ∧ recheck_not_changing liu_yao src.yao_index
      then none
      else if src.kind = SourceKind.benGuaYao ∧ recheck_not_changing liu_yao src.yao_index
      then none
      else some (branches.getD 0 "" ++ branches.getD 1 "" ++ branches.getD 2 "" ++ "三合局")
  else none

/-- `check_san_he_ju(liu_yao, bazi)`: first qualifying triad in fixed
order, or nothing. -/
def check_san_he_ju (liu_yao : List YaoDetails) (bazi : BaZi) : Option String :=
  let day_branch := bazi.day.branch
  let month_branch := bazi.month.branch
  san_he_ju_groups.findSome? (fun g => san_he_ju_triad liu_yao day_branch month_branch g.1 g.2)

/-! ## The divination pipeline `six_yao_divination` (`liu_yao.py`)

The imperative function is embedded as a composition of pure list
transformations, one named definition per numbered step of the source.
Lookups that would raise (`HEXAGRAM_MAP[...]`, the unconditional
auxiliary-spirit tables) make the whole function return `none`. -/

/-- Step 0 (`initialize_yao_details_vector`): six records with position,
changing flag and 世/應 mark. -/
def initialize_yao_details_vector (main_info : HexagramInfo)
    (changing_line_indices : List Int) : List YaoDetails :=
  (List.range 6).map (fun i =>
    let yao : YaoDetails := { position := i + 1 }
    let yao := if (Int.ofNat (i + 1)) ∈ changing_line_indices
      then { yao with is_changing := true } else yao
    if (i + 1) = main_info.shi_yao_position then { yao with shi_ying_mark := "世" }
    else if (i + 1) = main_info.ying_yao_position then { yao with shi_ying_mark := "應" }
    else { yao with shi_ying_mark := "" })

/-- `generate_tian_gan_and_di_zhi(yao_details_list, hexagram, type_yao)`:
write the palace-pattern pillar of each position into the main (0),
changed (1) or hidden (2) pillar slot. -/
def generate_tian_gan_and_di_zhi (yao_details_list : List YaoDetails)
    (hexagram : HexagramInfo) (type_yao : Nat) : List YaoDetails :=
  let inner_stems := PALACE_STEM_PATTERNS hexagram.inner_hexagram
  let inner_branches := PALACE_BRANCH_PATTERNS hexagram.inner_hexagram
  let outer_stems := PALACE_STEM_PATTERNS hexagram.outer_hexagram
  let outer_branches := PALACE_BRANCH_PATTERNS hexagram.outer_hexagram
  yao_details_list.enum.map (fun p =>
    let stem := if p.1 < 3 then inner_stems.getD p.1 "" else outer_stems.getD p.1 ""
    let branch := if p.1 < 3 then inner_branches.getD p.1 "" else outer_branches.getD p.1 ""
    let new_pillar : Pillar := ⟨stem, branch⟩
    match type_yao with
    | 0 => { p.2 with main_pillar := some new_pillar }
    | 1 => { p.2 with changed_pillar := some new_pillar }
    | 2 => { p.2 with hidden_pillar := some new_pillar }
    | _ => p.2)

/-- `fill_element_and_relative(yao_list, palace_element, is_main_hexagram)`. -/
def fill_element_and_relative (yao_list : List YaoDetails) (palace_element : String)
    (is_main_hexagram : Bool) : List YaoDetails :=
  yao_list.map (fun yao =>
    match (if is_main_hexagram then yao.main_pillar else yao.changed_pillar) with
    | some p =>
      match branchFiveElements p.branch with
      | some element =>
        let relative := get_relative palace_element element
        if is_main_hexagram then { yao with main_element := element, main_relative := relative }
        else { yao with changed_element := element, changed_relative := relative }
      | none =>
        if is_main_hexagram then { yao with main_element := "未知", main_relative := "錯誤" }
        else { yao with changed_element := "未知", changed_relative := "錯誤" }
    | none =>
      if is_main_hexagram then { yao with main_element := "未知", main_relative := "錯誤" }
      else { yao with changed_element := "未知", changed_relative := "錯誤" })

/-- The validity filter used on kinship roles in `calculate_hidden_gods`
(`truthy and not in ["錯誤", "未知", ""]`). -/
def validRelative (r : String) : Bool := r ≠ "錯誤" ∧ r ≠ "未知" ∧ r ≠ ""

/-- `calculate_hidden_gods(base_palace_info, main_palace_element, yao_list)`:
generate the base palace's pillars into the hidden slots, then keep a
hidden entry only when its kinship role is absent from the main lines. -/
def calculate_hidden_gods (base_palace_info : HexagramInfo)
    (main_palace_element : String) (yao_list : List YaoDetails) : List YaoDetails :=
  let main_relatives :=
    (yao_list.map (fun y => y.main_relative)).filter validRelative
  let l := generate_tian_gan_and_di_zhi yao_list base_palace_info 2
  l.map (fun yao =>
    match yao.hidden_pillar with
    | some hp =>
      match branchFiveElements hp.branch with
      | some he =>
        let yao := { yao with hidden_element := he }
        let calculated_relative := get_relative main_palace_element he
        if validRelative calculated_relative ∧ calculated_relative ∉ main_relatives
        then { yao with hidden_relative := calculated_relative }
        else { yao with hidden_pillar := none, hidden_element := "", hidden_relative := "" }
      | none => { yao with hidden_element := "", hidden_relative := "" }
    | none => { yao with hidden_element := "", hidden_relative := "" })

/-- Step 5's changed-code computation: flip the bit of each in-range
changing position (out-of-range positions only produce a warning). -/
def compute_changed_code (main_hexagram_code : String)
    (changing_line_indices : List Int) : String :=
  String.mk (changing_line_indices.foldl (fun acc idx =>
    if 1 ≤ idx ∧ idx ≤ 6 then
      acc.set (idx - 1).toNat
        (if acc.getD (idx - 1).toNat ' ' = '0' then '1' else '0')
    else acc) main_hexagram_code.toList)

/-- Steps 1-4: initialization, main pillars, yao types, changing marks and
main elements/kinship. -/
def six_yao_steps_to_4 (main_hexagram_code : String) (main_info : HexagramInfo)
    (changing_line_indices : List Int) : List YaoDetails :=
  let liu0 := initialize_yao_details_vector main_info changing_line_indices
  let liu1 := generate_tian_gan_and_di_zhi liu0 main_info 0
  let liu2 := liu1.enum.map (fun p =>
    { p.2 with main_yao_type := main_hexagram_code.toList.getD p.1 '0' })
  let liu3 := liu2.enum.map (fun p =>
    if (Int.ofNat (p.1 + 1)) ∈ changing_line_indices then
      { p.2 with is_changing := true,
                 change_mark := if p.2.main_yao_type = '1' then "O" else "X" }
    else p.2)
  fill_element_and_relative liu3 main_info.five_element true

/-- Step 5: changed hexagram derivation (absent for a static reading). -/
def six_yao_step5 (main_hexagram_code : String) (main_info : HexagramInfo)
    (changing_line_indices : List Int) (liu4 : List YaoDetails) :
    Option (List YaoDetails × Option String × Option HexagramInfo) :=
  if changing_line_indices = [] then some (liu4, none, none)
  else
    match hexLookup (compute_changed_code main_hexagram_code changing_line_indices) with
    | none => none
    | some changed_info =>
      some (fill_element_and_relative
          (generate_tian_gan_and_di_zhi liu4 changed_info 1) main_info.five_element false,
        some (compute_changed_code main_hexagram_code changing_line_indices),
        some changed_info)

/-- Step 6: hidden-pillar completion from the base palace.  An unknown
palace only warns and skips; a catalog miss on the base code would raise. -/
def six_yao_step6 (main_info : HexagramInfo) (liu5 : List YaoDetails) :
    Option (List YaoDetails) :=
  match palace_code_map main_info.palace_type with
  | some base_code =>
    match hexLookup base_code with
    | some base_info =>
      some (calculate_hidden_gods base_info main_info.five_element liu5)
    | none => none
  | none => some liu5

/-- Step 7: six spirits from the day stem. -/
def six_yao_step7 (bazi : BaZi) (liu6 : List YaoDetails) : List YaoDetails :=
  let day_stem := bazi.day.stem
  match (if day_stem ≠ "" then DAY_STEM_TO_SPIRIT_START day_stem else none) with
  | some start_idx =>
    liu6.enum.map (fun p => { p.2 with spirit := SIX_SPIRITS.getD ((start_idx + p.1) % 6) "" })
  | none =>
    liu6.map (fun y => { y with spirit := if day_stem = "" then "空" else "未知" })

/-- Step 8: month strength, 臨日/日扶 and 日生/日克. -/
def six_yao_step8 (bazi : BaZi) (liu7 : List YaoDetails) : List YaoDetails :=
  let month_branch := bazi.month.branch
  let day_branch := bazi.day.branch
  liu7.map (fun y =>
    let line_branch := y.main_pillar.map (fun p => p.branch)
    let y := { y with wang_shuai := getWangShuai y.main_element month_branch line_branch }
    let y := match line_branch with
      | some lb =>
        let lr := checkLinRiRiFu (some lb) (some day_branch)
        { y with lin_ri := lr.1, ri_fu := lr.2 }
      | none => y
    let rk := checkRiShengRiKe (some y.main_element) (some day_branch)
    { y with ri_sheng := rk.1, ri_ke := rk.2 })

/-- The void branches of the BaZi (truthy fields only). -/
def xunKongBranches (bazi : BaZi) : List String :=
  (if bazi.xun_kong_1 ≠ "" then [bazi.xun_kong_1] else [])
    ++ (if bazi.xun_kong_2 ≠ "" then [bazi.xun_kong_2] else [])

/-- Step 8.5: mark 旬空. -/
def six_yao_step85 (bazi : BaZi) (liu8 : List YaoDetails) : List YaoDetails :=
  let xkb := xunKongBranches bazi
  liu8.map (fun y =>
    match y.main_pillar with
    | some p => if p.branch ∈ xkb then { y with xun_kong := true } else y
    | none => y)

/-- Display-name shortening of auxiliary-spirit markers in step 10. -/
def markerRename (n : String) : String :=
  match n with
  | "桃花" => "桃花" | "日祿" => "祿" | "羊刃" => "羊刃" | "驛馬" => "驛馬"
  | "天馬" => "天馬" | "華蓋" => "蓋" | "將星" => "將" | "劫煞" => "劫"
  | "災煞" => "災" | "文昌" => "昌" | "謀星" => "謀" | "日德" => "德"
  | "貴人" => "貴人"
  | other => other

/-- The categories excluded from the free-form marker loop of step 10. -/
def structuralShenSha : List String := ["太歲", "月建", "日辰", "月破", "日沖", "月合", "日合"]

/-- Step 10, 月破 check. -/
def msy_yue_peng (yue_peng_branches : List String) (yao_branch : String)
    (yao : YaoDetails) : YaoDetails :=
  if yao_branch ∈ yue_peng_branches then { yao with yue_peng := true } else yao

/-- Step 10, 日沖 check. -/
def msy_ri_chong (ri_chong_branches : List String) (yao_branch : String)
    (yao : YaoDetails) : YaoDetails :=
  if yao_branch ∈ ri_chong_branches then { yao with ri_chong := true } else yao

/-- Step 10, 月合 check with the 辰-month / 未-month special cases. -/
def msy_yue_he (month_branch : String) (yue_he_branches : List String)
    (yao_branch : String) (yao : YaoDetails) : YaoDetails :=
  if yao_branch ∈ yue_he_branches then
    match get_he_type month_branch yao_branch true with
    | some t => { yao with yue_he := some t }
    | none => yao
  else if month_branch = "辰" ∧ (yao_branch = "寅" ∨ yao_branch = "卯") then
    { yao with yue_he := some "平合" }
  else if month_branch = "未" ∧ (yao_branch = "巳" ∨ yao_branch = "午") then
    { yao with yue_he := some "平合" }
  else yao

/-- Step 10, 日合 check. -/
def msy_ri_he (day_branch : String) (ri_he_branches : List String)
    (yao_branch : String) (yao : YaoDetails) : YaoDetails :=
  if yao_branch ∈ ri_he_branches then
    match get_he_type day_branch yao_branch false with
    | some t => { yao with ri_he := some t }
    | none => yao
  else yao

/-- Step 10, the 暗動 / 日破 disambiguation: only for a day-clashed,
non-changing line; month-strong lines get 暗動, the rest get 日破. -/
def msy_an_dong_ri_peng (yao : YaoDetails) : YaoDetails :=
  if yao.ri_chong ∧ ¬ yao.is_changing then
    if yao.wang_shuai ∈ (["月生", "月扶", "臨月"] : List String) ∨
        yao.yue_he = some "生合" ∨ yao.yue_he = some "平合"
    then { yao with an_dong := true }
    else { yao with ri_peng := true }
  else yao

/-- Step 10, the free-form auxiliary-spirit marker loop. -/
def append_shen_sha_markers (yao_branch : String)
    (shen_sha_map : List (String × List String)) (yao : YaoDetails) : YaoDetails :=
  shen_sha_map.foldl (fun y entry =>
    if entry.1 ∉ structuralShenSha ∧ yao_branch ∈ entry.2 then
      if markerRename entry.1 ∉ y.shen_sha_markers
      then { y with shen_sha_markers := y.shen_sha_markers ++ [markerRename entry.1] }
      else y
    else y) yao

/-- Step 10, per line: 月破, 日沖, 月合 (with special cases), 日合, the
暗動/日破 disambiguation, and the auxiliary-spirit markers, in source
order. -/
def mark_shen_sha_yao (month_branch day_branch : String)
    (yue_peng_branches ri_chong_branches yue_he_branches ri_he_branches : List String)
    (shen_sha_map : List (String × List String)) (yao : YaoDetails) : YaoDetails :=
  match yao.main_pillar with
  | none => yao
  | some p =>
    append_shen_sha_markers p.branch shen_sha_map
      (msy_an_dong_ri_peng
        (msy_ri_he day_branch ri_he_branches p.branch
          (msy_yue_he month_branch yue_he_branches p.branch
            (msy_ri_chong ri_chong_branches p.branch
              (msy_yue_peng yue_peng_branches p.branch yao)))))

/-- Step 10.3, 變卦旬空 check. -/
def mcr_xun_kong (xun_kong_branches : List String) (changed_branch : String)
    (yao : YaoDetails) : YaoDetails :=
  if changed_branch ∈ xun_kong_branches then { yao with changed_xun_kong := true } else yao

/-- Step 10.3, 變卦臨日/日扶. -/
def mcr_lin_ri_ri_fu (day_branch changed_branch : String) (yao : YaoDetails) : YaoDetails :=
  { yao with changed_lin_ri := (checkLinRiRiFu (some changed_branch) (some day_branch)).1,
             changed_ri_fu := (checkLinRiRiFu (some changed_branch) (some day_branch)).2 }

/-- Step 10.3, 變卦日生/日克. -/
def mcr_ri_sheng_ri_ke (day_branch changed_element : String) (yao : YaoDetails) : YaoDetails :=
  { yao with changed_ri_sheng := (checkRiShengRiKe (some changed_element) (some day_branch)).1,
             changed_ri_ke := (checkRiShengRiKe (some changed_element) (some day_branch)).2 }

/-- Step 10.3, 變卦月破. -/
def mcr_yue_peng (yue_peng_branches : List String) (changed_branch : String)
    (yao : YaoDetails) : YaoDetails :=
  if changed_branch ∈ yue_peng_branches then { yao with changed_yue_peng := true } else yao

/-- Step 10.3, 變卦日沖. -/
def mcr_ri_chong (ri_chong_branches : List String) (changed_branch : String)
    (yao : YaoDetails) : YaoDetails :=
  if changed_branch ∈ ri_chong_branches then { yao with changed_ri_chong := true } else yao

/-- Step 10.3, 變卦月合 with the special cases. -/
def mcr_yue_he (month_branch : String) (yue_he_branches : List String)
    (changed_branch : String) (yao : YaoDetails) : YaoDetails :=
  if changed_branch ∈ yue_he_branches then
    match get_he_type month_branch changed_branch true with
    | some t => { yao with changed_yue_he := some t }
    | none => yao
  else if month_branch = "辰" ∧ (changed_branch = "寅" ∨ changed_branch = "卯") then
    { yao with changed_yue_he := some "平合" }
  else if month_branch = "未" ∧ (changed_branch = "巳" ∨ changed_branch = "午") then
    { yao with changed_yue_he := some "平合" }
  else yao

/-- Step 10.3, 變卦日合. -/
def mcr_ri_he (day_branch : String) (ri_he_branches : List String)
    (changed_branch : String) (yao : YaoDetails) : YaoDetails :=
  if changed_branch ∈ ri_he_branches then
    match get_he_type day_branch changed_branch false with
    | some t => { yao with changed_ri_he := some t }
    | none => yao
  else yao

/-- Step 10.3, per line: day/month relations of the changed pillar of a
changing line, in source order.  (The changed 暗動/日破 block of the
source is a `pass`; the changed element is read before any update, as in
the source.) -/
def mark_changed_relations (month_branch day_branch : String)
    (xun_kong_branches yue_peng_branches ri_chong_branches yue_he_branches
      ri_he_branches : List String) (yao : YaoDetails) : YaoDetails :=
  if yao.is_changing then
    match yao.changed_pillar with
    | some cp =>
      mcr_ri_he day_branch ri_he_branches cp.branch
        (mcr_yue_he month_branch yue_he_branches cp.branch
          (mcr_ri_chong ri_chong_branches cp.branch
            (mcr_yue_peng yue_peng_branches cp.branch
              (mcr_ri_sheng_ri_ke day_branch yao.changed_element
                (mcr_lin_ri_ri_fu day_branch cp.branch
                  (mcr_xun_kong xun_kong_branches cp.branch yao))))))
    | none => yao
  else yao

/-- Step 10.5, 化進神/化退神 marker of a changing line. -/
def mhh_hua (yao : YaoDetails) : YaoDetails :=
  match yao.main_pillar, yao.changed_pillar with
  | some mp, some cp =>
    match check_hua_jin_tui mp.branch cp.branch with
    | some hua =>
      if hua ∉ yao.shen_sha_markers
      then { yao with shen_sha_markers := yao.shen_sha_markers ++ [hua] }
      else yao
    | none => yao
  | _, _ => yao

/-- Step 10.5, 回頭生/回頭克 marker of a changing line. -/
def mhh_hui_tou (yao : YaoDetails) : YaoDetails :=
  if yao.main_element ≠ "" ∧ yao.changed_element ≠ "" then
    match check_hui_tou_sheng_ke yao.main_element yao.changed_element with
    | some r =>
      if r ∉ yao.shen_sha_markers
      then { yao with shen_sha_markers := yao.shen_sha_markers ++ [r] }
      else yao
    | none => yao
  else yao

/-- Step 10.5, per line: 化進神/化退神 and 回頭生/回頭克 markers of a
changing line. -/
def mark_hua_and_hui_tou (yao : YaoDetails) : YaoDetails :=
  if yao.is_changing then mhh_hui_tou (mhh_hua yao) else yao

/-- The result fields of `result_json` that carry engine data (purely
textual fields such as the detailed names and the echoed BaZi are not
modelled).  `bian_gua_code` is the internal `changed_hexagram_code` used
for the changed-hexagram lookup, exposed for specification. -/
structure DivinationSummary where
  san_he_ju : Option String := none
  ben_gua_info : HexagramInfo
  bian_gua_code : Option String := none
  bian_gua_info : Option HexagramInfo := none
  shen_sa : List (String × List String) := []
deriving DecidableEq, Repr

/-- Steps 10-10.5 as one list transformation. -/
def six_yao_steps10 (bazi : BaZi) (shen_sha_map : List (String × List String))
    (liu85 : List YaoDetails) : List YaoDetails :=
  let month_branch := bazi.month.branch
  let day_branch := bazi.day.branch
  let yue_peng_branches := shenSaGet shen_sha_map "月破"
  let ri_chong_branches := shenSaGet shen_sha_map "日沖"
  let yue_he_branches := shenSaGet shen_sha_map "月合"
  let ri_he_branches := shenSaGet shen_sha_map "日合"
  ((liu85.map (mark_shen_sha_yao month_branch day_branch yue_peng_branches
      ri_chong_branches yue_he_branches ri_he_branches shen_sha_map)).map
    (mark_changed_relations month_branch day_branch (xunKongBranches bazi)
      yue_peng_branches ri_chong_branches yue_he_branches ri_he_branches)).map
    mark_hua_and_hui_tou

/-- `six_yao_divination(main_hexagram_code, bazi, changing_line_indices)`. -/
def six_yao_divination (main_hexagram_code : String) (bazi : BaZi)
    (changing_line_indices : List Int) :
    Option (List YaoDetails × DivinationSummary) :=
  match hexLookup main_hexagram_code with
  | none => none
  | some main_info =>
    match six_yao_step5 main_hexagram_code main_info changing_line_indices
        (six_yao_steps_to_4 main_hexagram_code main_info changing_line_indices) with
    | none => none
    | some (liu5, bian_code, bian_info) =>
      match six_yao_step6 main_info liu5 with
      | none => none
      | some liu6 =>
        match build_shen_sha_map bazi with
        | none => none
        | some shen_sha_map =>
          some (six_yao_steps10 bazi shen_sha_map
              (six_yao_step85 bazi (six_yao_step8 bazi (six_yao_step7 bazi liu6))),
            { san_he_ju := check_san_he_ju
                (six_yao_steps10 bazi shen_sha_map
                  (six_yao_step85 bazi (six_yao_step8 bazi (six_yao_step7 bazi liu6)))) bazi,
              ben_gua_info := main_info,
              bian_gua_code := bian_code,
              bian_gua_info := bian_info,
              shen_sa := shen_sha_map })

/-! ## Theorems for claims C5 and C7 -/

/-- A fixed example BaZi (2025-12-01 19:00: 乙巳 year, 丁亥 month, 甲子 day,
甲戌 hour; 甲子 decan voids 戌, 亥). -/
def bzEx : BaZi :=
  { year := ⟨"乙", "巳"⟩, month := ⟨"丁", "亥"⟩, day := ⟨"甲", "子"⟩,
    hour := ⟨"甲", "戌"⟩, xun_kong_1 := "戌", xun_kong_2 := "亥" }

/-- Claim C5 (code behavior at the failing input): a changing-line value
outside 1..6 is not rejected — the divination completes normally, no bit
is flipped, and the changed hexagram silently equals the main hexagram. -/
theorem six_yao_out_of_range_changing_line_completes :
    (six_yao_divination "111111" bzEx [7]).isSome = true ∧
    (six_yao_divination "111111" bzEx [7]).map (fun r => r.2.bian_gua_code) =
      some (some "111111") := by
  exact ⟨by decide, by decide⟩

/-- Bit flip used by the changed-code computation. -/
def flipChar (c : Char) : Char := if c = '0' then '1' else '0'

/-- The fold of `compute_changed_code`, pointwise: with in-range, duplicate
free changing positions, position `i` is flipped exactly when `i+1` is a
changing position. -/
theorem compute_changed_code_foldl_getD (ch : List Int)
    (h2 : ∀ x ∈ ch, 1 ≤ x ∧ x ≤ 6) (h3 : ch.Nodup) :
    ∀ l : List Char, l.length = 6 → ∀ i : Nat, i < 6 →
      (ch.foldl (fun acc idx =>
        if 1 ≤ idx ∧ idx ≤ 6 then
          acc.set (idx - 1).toNat
            (if acc.getD (idx - 1).toNat ' ' = '0' then '1' else '0')
        else acc) l).getD i ' ' =
      if (Int.ofNat (i + 1)) ∈ ch then flipChar (l.getD i ' ') else l.getD i ' ' := by
  induction ch with
  | nil => intro l _ i _; simp
  | cons a t ih =>
    intro l hl i hi
    obtain ⟨ha1, ha6⟩ := h2 a (List.mem_cons_self a t)
    have hat : a ∉ t := (List.nodup_cons.mp h3).1
    have ht : t.Nodup := (List.nodup_cons.mp h3).2
    have h2t : ∀ x ∈ t, 1 ≤ x ∧ x ≤ 6 := fun x hx => h2 x (List.mem_cons_of_mem a hx)
    have hcond : 1 ≤ a ∧ a ≤ 6 := ⟨ha1, ha6⟩
    simp only [List.foldl_cons, hcond, and_self, if_true]
    rw [ih h2t ht _ (by simp [hl]) i hi]
    by_cases hia : i = (a - 1).toNat
    · have hEq : Int.ofNat (i + 1) = a := by
        simp only [Int.ofNat_eq_coe]
        omega
      have hmem : (Int.ofNat (i + 1)) ∈ a :: t := by
        rw [hEq]; exact List.mem_cons_self a t
      have hnmem : (Int.ofNat (i + 1)) ∉ t := by
        rw [hEq]; exact hat
      rw [if_pos hmem, if_neg hnmem, ← hia]
      rw [List.getD_eq_getElem?_getD, List.getElem?_set_self (by omega : i < l.length)]
      simp [flipChar]
    · have hne : Int.ofNat (i + 1) ≠ a := by
        simp only [Int.ofNat_eq_coe]
        omega
      have hmem : ((Int.ofNat (i + 1)) ∈ a :: t) ↔ ((Int.ofNat (i + 1)) ∈ t) := by
        rw [List.mem_cons]
        exact or_iff_right hne
      have hset : ((l.set (a - 1).toNat
          (if l.getD (a - 1).toNat ' ' = '0' then '1' else '0')).getD i ' ') =
          l.getD i ' ' := by
        rw [List.getD_eq_getElem?_getD, List.getElem?_set_ne (fun h => hia h.symm),
          List.getD_eq_getElem?_getD]
      rw [hset]
      by_cases hm : (Int.ofNat (i + 1)) ∈ t
      · rw [if_pos hm, if_pos (hmem.mpr hm)]
      · rw [if_neg hm, if_neg (fun hx => hm (hmem.mp hx))]

/-- The fold of `compute_changed_code` preserves the length. -/
theorem compute_changed_code_foldl_length (ch : List Int) (l : List Char) :
    (ch.foldl (fun acc idx =>
      if 1 ≤ idx ∧ idx ≤ 6 then
        acc.set (idx - 1).toNat
          (if acc.getD (idx - 1).toNat ' ' = '0' then '1' else '0')
      else acc) l).length = l.length := by
  induction ch generalizing l with
  | nil => rfl
  | cons a t ih =>
    simp only [List.foldl_cons]
    by_cases h : 1 ≤ a ∧ a ≤ 6
    · rw [if_pos h, ih, List.length_set]
    · rw [if_neg h, ih]

/-- Every key of the catalog is a six-character binary code. -/
theorem hexagram_keys_binary :
    HEXAGRAM_MAP.all (fun p => p.1.length = 6 &&
      (List.range 6).all (fun i =>
        p.1.toList.getD i ' ' == '0' || p.1.toList.getD i ' ' == '1')) = true := by
  decide

/-- A successful lookup means the code is a six-character binary string. -/
theorem hexLookup_some_binary (code : String) (info : HexagramInfo)
    (h : hexLookup code = some info) :
    code.length = 6 ∧ ∀ i : Nat, i < 6 →
      code.toList.getD i ' ' = '0' ∨ code.toList.getD i ' ' = '1' := by
  unfold hexLookup at h
  rcases hf : HEXAGRAM_MAP.find? (fun e => e.1 == code) with _ | e
  · rw [hf] at h
    exact absurd h (by simp)
  · have hkey : e.1 = code := by
      have := List.find?_some hf
      exact eq_of_beq this
    have hmem : e ∈ HEXAGRAM_MAP := List.mem_of_find?_eq_some hf
    have hall := List.all_eq_true.mp hexagram_keys_binary e hmem
    simp only [Bool.and_eq_true, List.all_eq_true, List.mem_range, Bool.or_eq_true,
      beq_iff_eq, decide_eq_true_eq] at hall
    rw [hkey] at hall
    exact ⟨hall.1, fun i hi => hall.2 i hi⟩

/-- Any six-character binary string is a key of the catalog. -/
theorem hexLookup_of_binary (l : List Char) (hl : l.length = 6)
    (hb : ∀ i : Nat, i < 6 → l.getD i ' ' = '0' ∨ l.getD i ' ' = '1') :
    (hexLookup (String.mk l)).isSome = true := by
  match l, hl with
  | [c0, c1, c2, c3, c4, c5], _ =>
    have h0 := hb 0 (by omega)
    have h1 := hb 1 (by omega)
    have h2 := hb 2 (by omega)
    have h3 := hb 3 (by omega)
    have h4 := hb 4 (by omega)
    have h5 := hb 5 (by omega)
    simp only [List.getD] at h0 h1 h2 h3 h4 h5
    rcases h0 with rfl | rfl <;> rcases h1 with rfl | rfl <;> rcases h2 with rfl | rfl <;>
      rcases h3 with rfl | rfl <;> rcases h4 with rfl | rfl <;> rcases h5 with rfl | rfl <;>
      decide

/-- Unpack a successful `six_yao_divination` run into its steps. -/
theorem six_yao_divination_unfold (code : String) (bazi : BaZi) (ch : List Int)
    (yaos : List YaoDetails) (res : DivinationSummary)
    (h : six_yao_divination code bazi ch = some (yaos, res)) :
    ∃ main_info liu5 bian_code bian_info liu6 ssm,
      hexLookup code = some main_info ∧
      six_yao_step5 code main_info ch (six_yao_steps_to_4 code main_info ch) =
        some (liu5, bian_code, bian_info) ∧
      six_yao_step6 main_info liu5 = some liu6 ∧
      build_shen_sha_map bazi = some ssm ∧
      yaos = six_yao_steps10 bazi ssm
        (six_yao_step85 bazi (six_yao_step8 bazi (six_yao_step7 bazi liu6))) ∧
      res = { san_he_ju := check_san_he_ju yaos bazi, ben_gua_info := main_info,
              bian_gua_code := bian_code, bian_gua_info := bian_info,
              shen_sa := ssm } := by
  unfold six_yao_divination at h
  split at h
  · exact absurd h (by simp)
  next main_info h1 =>
    split at h
    · exact absurd h (by simp)
    next liu5 bian_code bian_info h5 =>
      split at h
      · exact absurd h (by simp)
      next liu6 h6 =>
        split at h
        · exact absurd h (by simp)
        next ssm h9 =>
          simp only [Option.some.injEq, Prod.mk.injEq] at h
          obtain ⟨hy, hr⟩ := h
          exact ⟨main_info, liu5, bian_code, bian_info, liu6, ssm, h1, h5, h6, h9,
            hy.symm, by rw [← hr, hy]⟩

/-- Claim C7: for a valid main code and changing positions in 1..6, the
code used to look up the changed hexagram is the main code with exactly
the changing bits flipped, the lookup always succeeds, and the divination
result records exactly that code and catalog entry; in particular
`"111111"` with changing line 1 gives `"011111"`, the catalog entry
天風姤 of palace 乾 with inner trigram 巽. -/
theorem changed_code_is_bit_flip (code : String) (info : HexagramInfo) (ch : List Int)
    (h1 : hexLookup code = some info)
    (h2 : ∀ x ∈ ch, 1 ≤ x ∧ x ≤ 6) (h3 : ch.Nodup) :
    ((compute_changed_code code ch).length = 6 ∧
     (∀ i : Nat, i < 6 →
        (compute_changed_code code ch).toList.getD i ' ' =
          if (Int.ofNat (i + 1)) ∈ ch then flipChar (code.toList.getD i ' ')
          else code.toList.getD i ' ') ∧
     (hexLookup (compute_changed_code code ch)).isSome = true ∧
     (∀ bazi yaos res, ch ≠ [] →
        six_yao_divination code bazi ch = some (yaos, res) →
        res.bian_gua_code = some (compute_changed_code code ch) ∧
        res.bian_gua_info = hexLookup (compute_changed_code code ch))) ∧
    (compute_changed_code "111111" [1] = "011111" ∧
     hexLookup "011111" =
       some ⟨"天風姤", "陰陽相遇", "金", 1, 4, true, "乾", "巽", "乾", ""⟩) := by
  obtain ⟨hlen, hchars⟩ := hexLookup_some_binary code info h1
  have htl : code.toList.length = 6 := hlen
  have hpoint : ∀ i : Nat, i < 6 →
      (compute_changed_code code ch).toList.getD i ' ' =
        if (Int.ofNat (i + 1)) ∈ ch then flipChar (code.toList.getD i ' ')
        else code.toList.getD i ' ' := by
    intro i hi
    exact compute_changed_code_foldl_getD ch h2 h3 code.toList htl i hi
  have hclen : (compute_changed_code code ch).length = 6 := by
    have hfl := compute_changed_code_foldl_length ch code.toList
    unfold compute_changed_code
    show (List.foldl _ code.toList ch).length = 6
    rw [hfl]
    exact htl
  have hcbin : ∀ i : Nat, i < 6 →
      (compute_changed_code code ch).toList.getD i ' ' = '0' ∨
      (compute_changed_code code ch).toList.getD i ' ' = '1' := by
    intro i hi
    rw [hpoint i hi]
    by_cases hm : (Int.ofNat (i + 1)) ∈ ch
    · rw [if_pos hm]
      unfold flipChar
      rcases hchars i hi with hc | hc <;> rw [hc] <;> simp
    · rw [if_neg hm]
      exact hchars i hi
  have hsome : (hexLookup (compute_changed_code code ch)).isSome = true := by
    have : compute_changed_code code ch = String.mk (compute_changed_code code ch).toList := rfl
    rw [this]
    exact hexLookup_of_binary _ hclen hcbin
  refine ⟨⟨hclen, hpoint, hsome, ?_⟩, by decide, by decide⟩
  intro bazi yaos res hne h
  obtain ⟨mi, liu5, bian_code, bian_info, liu6, ssm, hmi, h5, _, _, _, hres⟩ :=
    six_yao_divination_unfold code bazi ch yaos res h
  have hmi' : mi = info := by
    rw [h1] at hmi
    exact (Option.some.injEq _ _ ▸ hmi).symm
  unfold six_yao_step5 at h5
  rw [if_neg hne] at h5
  rcases hcl : hexLookup (compute_changed_code code ch) with _ | ci
  · rw [hcl] at h5
    exact absurd h5 (by simp)
  · rw [hcl] at h5
    simp only [Option.some.injEq, Prod.mk.injEq] at h5
    obtain ⟨_, hbc, hbi⟩ := h5
    rw [hres]
    exact ⟨by simp [← hbc], by simp [← hbi, hcl]⟩

/-- Witness for C7 at main code 111111 with changing line 1. -/
theorem changed_code_is_bit_flip_witness :
    compute_changed_code "111111" [1] = "011111" ∧
    (hexLookup (compute_changed_code "111111" [1])).isSome = true :=
  have H := changed_code_is_bit_flip "111111"
    ⟨"乾為天", "剛健中正", "金", 6, 3, true, "乾", "乾", "乾", "本宮(六沖)"⟩ [1]
    (by decide) (by decide) (by decide)
  ⟨H.2.1, H.2.1 ▸ H.1.2.2.1⟩

/-! ## Theorem for claim C1 -/

/-- "Month-strong" as used by the 暗動/日破 gate: strength tag in
{月生, 月扶, 臨月} or month-combination type 生合 / 平合. -/
def monthStrongFields (y : YaoDetails) : Prop :=
  y.wang_shuai ∈ (["月生", "月扶", "臨月"] : List String) ∨
    y.yue_he = some "生合" ∨ y.yue_he = some "平合"

/-- The C1 property of one line: 暗動 and 日破 are false unless the line is
day-clashed and not changing; for such a line 暗動 holds exactly under
month strength and 日破 otherwise; never both. -/
def anDongRiPengOk (y : YaoDetails) : Prop :=
  (¬(y.ri_chong = true ∧ y.is_changing = false) →
    y.an_dong = false ∧ y.ri_peng = false) ∧
  ((y.ri_chong = true ∧ y.is_changing = false) →
    ((y.an_dong = true ↔ monthStrongFields y) ∧
     (y.ri_peng = true ↔ ¬ monthStrongFields y))) ∧
  ¬(y.an_dong = true ∧ y.ri_peng = true)

theorem anDongRiPengOk_of_fields (y z : YaoDetails)
    (h1 : z.an_dong = y.an_dong) (h2 : z.ri_peng = y.ri_peng)
    (h3 : z.ri_chong = y.ri_chong) (h4 : z.is_changing = y.is_changing)
    (h5 : z.wang_shuai = y.wang_shuai) (h6 : z.yue_he = y.yue_he)
    (h : anDongRiPengOk y) : anDongRiPengOk z := by
  unfold anDongRiPengOk monthStrongFields at *
  rw [h1, h2, h3, h4, h5, h6]
  exact h

theorem msy_yue_peng_flags (ypb : List String) (b : String) (y : YaoDetails) :
    (msy_yue_peng ypb b y).an_dong = y.an_dong ∧
    (msy_yue_peng ypb b y).ri_peng = y.ri_peng := by
  unfold msy_yue_peng
  split <;> exact ⟨rfl, rfl⟩

theorem msy_ri_chong_flags (rcb : List String) (b : String) (y : YaoDetails) :
    (msy_ri_chong rcb b y).an_dong = y.an_dong ∧
    (msy_ri_chong rcb b y).ri_peng = y.ri_peng := by
  unfold msy_ri_chong
  split <;> exact ⟨rfl, rfl⟩

theorem msy_yue_he_flags (mb : String) (yhb : List String) (b : String) (y : YaoDetails) :
    (msy_yue_he mb yhb b y).an_dong = y.an_dong ∧
    (msy_yue_he mb yhb b y).ri_peng = y.ri_peng := by
  refine ⟨?_, ?_⟩ <;>
    (unfold msy_yue_he; repeat' split) <;> first | rfl | trivial

theorem msy_ri_he_flags (db : String) (rhb : List String) (b : String) (y : YaoDetails) :
    (msy_ri_he db rhb b y).an_dong = y.an_dong ∧
    (msy_ri_he db rhb b y).ri_peng = y.ri_peng := by
  refine ⟨?_, ?_⟩ <;>
    (unfold msy_ri_he; repeat' split) <;> first | rfl | trivial

theorem append_shen_sha_markers_fields (b : String)
    (ssm : List (String × List String)) (y : YaoDetails) :
    (append_shen_sha_markers b ssm y).an_dong = y.an_dong ∧
    (append_shen_sha_markers b ssm y).ri_peng = y.ri_peng ∧
    (append_shen_sha_markers b ssm y).ri_chong = y.ri_chong ∧
    (append_shen_sha_markers b ssm y).is_changing = y.is_changing ∧
    (append_shen_sha_markers b ssm y).wang_shuai = y.wang_shuai ∧
    (append_shen_sha_markers b ssm y).yue_he = y.yue_he := by
  induction ssm generalizing y with
  | nil => exact ⟨rfl, rfl, rfl, rfl, rfl, rfl⟩
  | cons e t ih =>
    unfold append_shen_sha_markers at ih ⊢
    simp only [List.foldl_cons]
    have hstep :
        ((if e.1 ∉ structuralShenSha ∧ b ∈ e.2 then
            if markerRename e.1 ∉ y.shen_sha_markers
            then { y with shen_sha_markers := y.shen_sha_markers ++ [markerRename e.1] }
            else y
          else y) : YaoDetails).an_dong = y.an_dong ∧
        ((if e.1 ∉ structuralShenSha ∧ b ∈ e.2 then
            if markerRename e.1 ∉ y.shen_sha_markers
            then { y with shen_sha_markers := y.shen_sha_markers ++ [markerRename e.1] }
            else y
          else y) : YaoDetails).ri_peng = y.ri_peng ∧
        ((if e.1 ∉ structuralShenSha ∧ b ∈ e.2 then
            if markerRename e.1 ∉ y.shen_sha_markers
            then { y with shen_sha_markers := y.shen_sha_markers ++ [markerRename e.1] }
            else y
          else y) : YaoDetails).ri_chong = y.ri_chong ∧
        ((if e.1 ∉ structuralShenSha ∧ b ∈ e.2 then
            if markerRename e.1 ∉ y.shen_sha_markers
            then { y with shen_sha_markers := y.shen_sha_markers ++ [markerRename e.1] }
            else y
          else y) : YaoDetails).is_changing = y.is_changing ∧
        ((if e.1 ∉ structuralShenSha ∧ b ∈ e.2 then
            if markerRename e.1 ∉ y.shen_sha_markers
            then { y with shen_sha_markers := y.shen_sha_markers ++ [markerRename e.1] }
            else y
          else y) : YaoDetails).wang_shuai = y.wang_shuai ∧
        ((if e.1 ∉ structuralShenSha ∧ b ∈ e.2 then
            if markerRename e.1 ∉ y.shen_sha_markers
            then { y with shen_sha_markers := y.shen_sha_markers ++ [markerRename e.1] }
            else y
          else y) : YaoDetails).yue_he = y.yue_he := by
      refine ⟨?_, ?_, ?_, ?_, ?_, ?_⟩ <;> (repeat' split) <;> first | rfl | trivial
    obtain ⟨s1, s2, s3, s4, s5, s6⟩ := hstep
    obtain ⟨e1, e2, e3, e4, e5, e6⟩ := ih _
    exact ⟨e1.trans s1, e2.trans s2, e3.trans s3, e4.trans s4, e5.trans s5, e6.trans s6⟩

/-- The 暗動/日破 decision establishes the C1 property when applied to a
line whose two flags are still clear. -/
theorem msy_an_dong_ri_peng_ok (y : YaoDetails)
    (ha : y.an_dong = false) (hr : y.ri_peng = false) :
    anDongRiPengOk (msy_an_dong_ri_peng y) := by
  unfold msy_an_dong_ri_peng
  split
  next h1 =>
    have hc : y.ri_chong = true := h1.1
    have hch : y.is_changing = false := by
      have := h1.2
      simp only [Bool.not_eq_true] at this
      exact this
    split
    next h2 =>
      simp only [List.mem_cons, List.not_mem_nil, or_false] at h2
      refine ⟨fun hcon => absurd ⟨?_, ?_⟩ hcon, fun _ => ⟨?_, ?_⟩, ?_⟩ <;>
        simp [monthStrongFields, ha, hr, hc, hch] <;> tauto
    next h2 =>
      simp only [List.mem_cons, List.not_mem_nil, or_false] at h2
      refine ⟨fun hcon => absurd ⟨?_, ?_⟩ hcon, fun _ => ⟨?_, ?_⟩, ?_⟩ <;>
        simp [monthStrongFields, ha, hr, hc, hch] <;> tauto
  next h1 =>
    have hcon : ¬(y.ri_chong = true ∧ y.is_changing = false) := by
      intro hcc
      exact h1 ⟨hcc.1, by simp [hcc.2]⟩
    exact ⟨fun _ => ⟨ha, hr⟩, fun hcc => absurd hcc hcon, by simp [ha, hr]⟩

/-- `mark_shen_sha_yao` establishes the C1 property when applied to a line
whose 暗動, 日破 and 日沖 flags are still clear. -/
theorem mark_shen_sha_yao_ok (mb db : String) (ypb rcb yhb rhb : List String)
    (ssm : List (String × List String)) (y : YaoDetails)
    (ha : y.an_dong = false) (hr : y.ri_peng = false) (hc : y.ri_chong = false) :
    anDongRiPengOk (mark_shen_sha_yao mb db ypb rcb yhb rhb ssm y) := by
  unfold mark_shen_sha_yao
  rcases hp : y.main_pillar with _ | p
  · refine ⟨fun _ => ⟨ha, hr⟩, fun hcc => absurd hcc.1 (by simp [hc]), by simp [ha, hr]⟩
  · have h1 := msy_yue_peng_flags ypb p.branch y
    have h2 := msy_ri_chong_flags rcb p.branch (msy_yue_peng ypb p.branch y)
    have h3 := msy_yue_he_flags mb yhb p.branch
      (msy_ri_chong rcb p.branch (msy_yue_peng ypb p.branch y))
    have h4 := msy_ri_he_flags db rhb p.branch
      (msy_yue_he mb yhb p.branch
        (msy_ri_chong rcb p.branch (msy_yue_peng ypb p.branch y)))
    have hza : (msy_ri_he db rhb p.branch
        (msy_yue_he mb yhb p.branch
          (msy_ri_chong rcb p.branch (msy_yue_peng ypb p.branch y)))).an_dong = false := by
      rw [h4.1, h3.1, h2.1, h1.1, ha]
    have hzr : (msy_ri_he db rhb p.branch
        (msy_yue_he mb yhb p.branch
          (msy_ri_chong rcb p.branch (msy_yue_peng ypb p.branch y)))).ri_peng = false := by
      rw [h4.2, h3.2, h2.2, h1.2, hr]
    have hok := msy_an_dong_ri_peng_ok _ hza hzr
    have hf := append_shen_sha_markers_fields p.branch ssm
      (msy_an_dong_ri_peng
        (msy_ri_he db rhb p.branch
          (msy_yue_he mb yhb p.branch
            (msy_ri_chong rcb p.branch (msy_yue_peng ypb p.branch y)))))
    exact anDongRiPengOk_of_fields _ _ hf.1 hf.2.1 hf.2.2.1 hf.2.2.2.1 hf.2.2.2.2.1
      hf.2.2.2.2.2 hok

/-- Before step 10, no line has 暗動, 日破 or 日沖 set. -/
def flagsClear (y : YaoDetails) : Prop :=
  y.an_dong = false ∧ y.ri_peng = false ∧ y.ri_chong = false

theorem flagsClear_map {l : List YaoDetails} {g : YaoDetails → YaoDetails}
    (hg : ∀ y, flagsClear y → flagsClear (g y)) (h : ∀ y ∈ l, flagsClear y) :
    ∀ y ∈ l.map g, flagsClear y := by
  intro y hy
  obtain ⟨x, hx, rfl⟩ := List.mem_map.mp hy
  exact hg x (h x hx)

theorem flagsClear_yao_init (info : HexagramInfo) (ch : List Int) :
    ∀ y ∈ initialize_yao_details_vector info ch, flagsClear y := by
  intro y hy
  unfold initialize_yao_details_vector at hy
  obtain ⟨i, _, rfl⟩ := List.mem_map.mp hy
  dsimp only
  repeat' split
  all_goals exact ⟨rfl, rfl, rfl⟩

theorem flagsClear_generate (l : List YaoDetails) (info : HexagramInfo) (t : Nat)
    (h : ∀ y ∈ l, flagsClear y) :
    ∀ y ∈ generate_tian_gan_and_di_zhi l info t, flagsClear y := by
  intro y hy
  unfold generate_tian_gan_and_di_zhi at hy
  obtain ⟨p, hp, rfl⟩ := List.mem_map.mp hy
  have hP := h p.2 (List.snd_mem_of_mem_enum hp)
  dsimp only
  repeat' split
  all_goals exact hP

theorem flagsClear_fill (l : List YaoDetails) (e : String) (b : Bool)
    (h : ∀ y ∈ l, flagsClear y) :
    ∀ y ∈ fill_element_and_relative l e b, flagsClear y := by
  refine flagsClear_map ?_ h
  intro y hP
  dsimp only
  repeat' split
  all_goals exact hP

theorem flagsClear_hidden (base : HexagramInfo) (e : String) (l : List YaoDetails)
    (h : ∀ y ∈ l, flagsClear y) :
    ∀ y ∈ calculate_hidden_gods base e l, flagsClear y := by
  intro y hy
  unfold calculate_hidden_gods at hy
  obtain ⟨x, hx, rfl⟩ := List.mem_map.mp hy
  have hP := flagsClear_generate l base 2 h x hx
  dsimp only
  repeat' split
  all_goals exact hP

theorem flagsClear_steps_to_4 (code : String) (mi : HexagramInfo) (ch : List Int) :
    ∀ y ∈ six_yao_steps_to_4 code mi ch, flagsClear y := by
  unfold six_yao_steps_to_4
  refine flagsClear_fill _ _ _ ?_
  intro y hy
  obtain ⟨p, hp, rfl⟩ := List.mem_map.mp hy
  have hP2 : flagsClear p.2 := by
    obtain ⟨q, hq, hqe⟩ := List.mem_map.mp (List.snd_mem_of_mem_enum hp)
    rw [← hqe]
    have hQ := flagsClear_generate _ mi 0 (flagsClear_yao_init mi ch) q.2
      (List.snd_mem_of_mem_enum hq)
    exact hQ
  dsimp only
  repeat' split
  all_goals exact hP2

theorem flagsClear_step5 (code : String) (mi : HexagramInfo) (ch : List Int)
    (liu5 : List YaoDetails) (bc : Option String) (bi : Option HexagramInfo)
    (h5 : six_yao_step5 code mi ch (six_yao_steps_to_4 code mi ch) = some (liu5, bc, bi)) :
    ∀ y ∈ liu5, flagsClear y := by
  unfold six_yao_step5 at h5
  split at h5
  · simp only [Option.some.injEq, Prod.mk.injEq] at h5
    rw [← h5.1]
    exact flagsClear_steps_to_4 code mi ch
  · split at h5
    · exact absurd h5 (by simp)
    · simp only [Option.some.injEq, Prod.mk.injEq] at h5
      rw [← h5.1]
      exact flagsClear_fill _ _ _
        (flagsClear_generate _ _ 1 (flagsClear_steps_to_4 code mi ch))

theorem flagsClear_step6 (mi : HexagramInfo) (liu5 liu6 : List YaoDetails)
    (h : ∀ y ∈ liu5, flagsClear y) (h6 : six_yao_step6 mi liu5 = some liu6) :
    ∀ y ∈ liu6, flagsClear y := by
  unfold six_yao_step6 at h6
  split at h6
  · split at h6
    · simp only [Option.some.injEq] at h6
      rw [← h6]
      exact flagsClear_hidden _ _ _ h
    · exact absurd h6 (by simp)
  · simp only [Option.some.injEq] at h6
    rw [← h6]
    exact h

theorem flagsClear_step7 (bazi : BaZi) (l : List YaoDetails)
    (h : ∀ y ∈ l, flagsClear y) : ∀ y ∈ six_yao_step7 bazi l, flagsClear y := by
  intro y hy
  unfold six_yao_step7 at hy
  dsimp only at hy
  split at hy
  · obtain ⟨p, hp, rfl⟩ := List.mem_map.mp hy
    exact h p.2 (List.snd_mem_of_mem_enum hp)
  · obtain ⟨x, hx, rfl⟩ := List.mem_map.mp hy
    exact h x hx

theorem flagsClear_step8 (bazi : BaZi) (l : List YaoDetails)
    (h : ∀ y ∈ l, flagsClear y) : ∀ y ∈ six_yao_step8 bazi l, flagsClear y := by
  unfold six_yao_step8
  refine flagsClear_map ?_ h
  intro y hP
  dsimp only
  repeat' split
  all_goals exact hP

theorem flagsClear_step85 (bazi : BaZi) (l : List YaoDetails)
    (h : ∀ y ∈ l, flagsClear y) : ∀ y ∈ six_yao_step85 bazi l, flagsClear y := by
  unfold six_yao_step85
  refine flagsClear_map ?_ h
  intro y hP
  dsimp only
  repeat' split
  all_goals exact hP

/-- The gate-relevant fields of a line. -/
def gateFields (y : YaoDetails) :
    Bool × Bool × Bool × Bool × String × Option String :=
  (y.an_dong, y.ri_peng, y.ri_chong, y.is_changing, y.wang_shuai, y.yue_he)

theorem mcr_xun_kong_gate (xkb : List String) (cb : String) (y : YaoDetails) :
    gateFields (mcr_xun_kong xkb cb y) = gateFields y := by
  unfold mcr_xun_kong
  split <;> rfl

theorem mcr_lin_ri_ri_fu_gate (db cb : String) (y : YaoDetails) :
    gateFields (mcr_lin_ri_ri_fu db cb y) = gateFields y := rfl

theorem mcr_ri_sheng_ri_ke_gate (db ce : String) (y : YaoDetails) :
    gateFields (mcr_ri_sheng_ri_ke db ce y) = gateFields y := rfl

theorem mcr_yue_peng_gate (ypb : List String) (cb : String) (y : YaoDetails) :
    gateFields (mcr_yue_peng ypb cb y) = gateFields y := by
  unfold mcr_yue_peng
  split <;> rfl

theorem mcr_ri_chong_gate (rcb : List String) (cb : String) (y : YaoDetails) :
    gateFields (mcr_ri_chong rcb cb y) = gateFields y := by
  unfold mcr_ri_chong
  split <;> rfl

theorem mcr_yue_he_gate (mb : String) (yhb : List String) (cb : String) (y : YaoDetails) :
    gateFields (mcr_yue_he mb yhb cb y) = gateFields y := by
  unfold mcr_yue_he
  repeat' split
  all_goals rfl

theorem mcr_ri_he_gate (db : String) (rhb : List String) (cb : String) (y : YaoDetails) :
    gateFields (mcr_ri_he db rhb cb y) = gateFields y := by
  unfold mcr_ri_he
  repeat' split
  all_goals rfl

theorem mark_changed_relations_gate (mb db : String)
    (xkb ypb rcb yhb rhb : List String) (y : YaoDetails) :
    gateFields (mark_changed_relations mb db xkb ypb rcb yhb rhb y) = gateFields y := by
  unfold mark_changed_relations
  split
  · split
    · rw [mcr_ri_he_gate, mcr_yue_he_gate, mcr_ri_chong_gate, mcr_yue_peng_gate,
        mcr_ri_sheng_ri_ke_gate, mcr_lin_ri_ri_fu_gate, mcr_xun_kong_gate]
    · rfl
  · rfl

theorem mhh_hua_gate (y : YaoDetails) : gateFields (mhh_hua y) = gateFields y := by
  unfold mhh_hua
  repeat' split
  all_goals rfl

theorem mhh_hui_tou_gate (y : YaoDetails) : gateFields (mhh_hui_tou y) = gateFields y := by
  unfold mhh_hui_tou
  repeat' split
  all_goals rfl

theorem mark_hua_and_hui_tou_gate (y : YaoDetails) :
    gateFields (mark_hua_and_hui_tou y) = gateFields y := by
  unfold mark_hua_and_hui_tou
  split
  · rw [mhh_hui_tou_gate, mhh_hua_gate]
  · rfl

theorem anDongRiPengOk_of_gate (y z : YaoDetails)
    (hg : gateFields z = gateFields y) (h : anDongRiPengOk y) : anDongRiPengOk z := by
  unfold gateFields at hg
  simp only [Prod.mk.injEq] at hg
  exact anDongRiPengOk_of_fields y z hg.1 hg.2.1 hg.2.2.1 hg.2.2.2.1 hg.2.2.2.2.1
    hg.2.2.2.2.2 h

/-- Claim C1: in every divination result, 暗動 and 日破 are false unless
the line is day-clashed and not changing; for such a line 暗動 holds
exactly when the line is month-strong and 日破 otherwise; the two are
never both set. -/
theorem an_dong_ri_peng_gate (code : String) (bazi : BaZi) (ch : List Int)
    (yaos : List YaoDetails) (res : DivinationSummary)
    (h : six_yao_divination code bazi ch = some (yaos, res)) :
    ∀ y ∈ yaos, anDongRiPengOk y := by
  obtain ⟨mi, liu5, bc, bi, liu6, ssm, hmi, h5, h6, h9, hy, _⟩ :=
    six_yao_divination_unfold code bazi ch yaos res h
  subst hy
  intro y hy
  unfold six_yao_steps10 at hy
  obtain ⟨y3, hy3, rfl⟩ := List.mem_map.mp hy
  obtain ⟨y2, hy2, rfl⟩ := List.mem_map.mp hy3
  obtain ⟨y1, hy1, rfl⟩ := List.mem_map.mp hy2
  have hflags : flagsClear y1 :=
    flagsClear_step85 bazi _
      (flagsClear_step8 bazi _
        (flagsClear_step7 bazi _
          (flagsClear_step6 mi liu5 liu6 (flagsClear_step5 code mi ch liu5 bc bi h5) h6)))
      y1 hy1
  have hok := mark_shen_sha_yao_ok bazi.month.branch bazi.day.branch
    (shenSaGet ssm "月破") (shenSaGet ssm "日沖") (shenSaGet ssm "月合")
    (shenSaGet ssm "日合") ssm y1 hflags.1 hflags.2.1 hflags.2.2
  have hok3 := anDongRiPengOk_of_gate _ _
    (mark_changed_relations_gate bazi.month.branch bazi.day.branch
      (xunKongBranches bazi) (shenSaGet ssm "月破") (shenSaGet ssm "日沖")
      (shenSaGet ssm "月合") (shenSaGet ssm "日合") _) hok
  exact anDongRiPengOk_of_gate _ _ (mark_hua_and_hui_tou_gate _) hok3

/-- Witness for C1: the example divination run, with the property checked
on its six lines. -/
theorem an_dong_ri_peng_gate_witness :
    ∃ yaos res, six_yao_divination "111111" bzEx [] = some (yaos, res) ∧
      ∀ y ∈ yaos, anDongRiPengOk y := by
  refine ⟨_, _, rfl, ?_⟩
  exact an_dong_ri_peng_gate "111111" bzEx [] _ _ rfl

/-! ## Theorem for claim C2 -/

/-- What a recorded source tells about the line list: a main-line source
records that line's changing flag and a valid index; a changed-line source
is only recorded for a changing line; day and month sources are recorded
as changing. -/
def srcInv (l : List YaoDetails) (src : BranchSource) : Prop :=
  (src.kind = SourceKind.benGuaYao →
    ∃ y, l.get? src.yao_index.toNat = some y ∧ src.is_changing = y.is_changing ∧
      0 ≤ src.yao_index ∧ src.yao_index < Int.ofNat l.length) ∧
  (src.kind = SourceKind.bianYao →
    src.is_changing = true ∧
    ∃ y, l.get? src.yao_index.toNat = some y ∧ y.is_changing = true ∧
      0 ≤ src.yao_index ∧ src.yao_index < Int.ofNat l.length) ∧
  ((src.kind = SourceKind.day ∨ src.kind = SourceKind.month) → src.is_changing = true)

/-- All entries of a source map satisfy `srcInv`. -/
def mapInv (l : List YaoDetails) (m : String → Option BranchSource) : Prop :=
  ∀ b src, m b = some src → srcInv l src

theorem foldl_inv {α β : Type} (P : β → Prop) (f : β → α → β) (l : List α) (b : β)
    (hb : P b) (hf : ∀ x a, a ∈ l → P x → P (f x a)) : P (l.foldl f b) := by
  induction l generalizing b with
  | nil => exact hb
  | cons a t ih =>
    exact ih (f b a) (hf b a (List.mem_cons_self a t) hb)
      (fun x a' ha' => hf x a' (List.mem_cons_of_mem a ha'))

theorem mapInv_insert (l : List YaoDetails) (m : String → Option BranchSource)
    (k : String) (v : BranchSource) (hm : mapInv l m) (hv : srcInv l v) :
    mapInv l (mapInsert m k v) := by
  intro b src h
  unfold mapInsert at h
  split at h
  · cases h
    exact hv
  · exact hm b src h

theorem addMainYaoSources_inv (branches : List String) (l : List YaoDetails)
    (m : String → Option BranchSource) (hm : mapInv l m) :
    mapInv l (addMainYaoSources branches l m) := by
  unfold addMainYaoSources
  refine foldl_inv (mapInv l) _ _ _ hm ?_
  intro mcur p hp hinv
  dsimp only
  split
  · split
    · refine mapInv_insert l mcur _ _ hinv ?_
      refine ⟨fun _ => ⟨p.2, ?_, rfl, ?_, ?_⟩, fun hk => absurd hk (by simp), fun hk => ?_⟩
      · show l.get? (Int.ofNat p.1).toNat = some p.2
        simp only [Int.ofNat_eq_coe, Int.toNat_natCast, List.get?_eq_getElem?]
        exact List.mem_enum_iff_getElem?.mp hp
      · show (0 : Int) ≤ Int.ofNat p.1
        simp only [Int.ofNat_eq_coe]
        omega
      · show Int.ofNat p.1 < Int.ofNat l.length
        have := List.fst_lt_of_mem_enum hp
        simp only [Int.ofNat_eq_coe]
        omega
      · rcases hk with hk | hk <;> exact absurd hk (by simp)
    · exact hinv
  · exact hinv

theorem addBianYaoSources_inv (branches : List String) (l : List YaoDetails)
    (m : String → Option BranchSource) (hm : mapInv l m) :
    mapInv l (addBianYaoSources branches l m) := by
  unfold addBianYaoSources
  refine foldl_inv (mapInv l) _ _ _ hm ?_
  intro mcur p hp hinv
  dsimp only
  split
  · split
    next hcond =>
      refine mapInv_insert l mcur _ _ hinv ?_
      refine ⟨fun hk => absurd hk (by simp), fun _ => ⟨rfl, p.2, ?_, ?_, ?_, ?_⟩, fun hk => ?_⟩
      · show l.get? (Int.ofNat p.1).toNat = some p.2
        simp only [Int.ofNat_eq_coe, Int.toNat_natCast, List.get?_eq_getElem?]
        exact List.mem_enum_iff_getElem?.mp hp
      · exact hcond.1
      · show (0 : Int) ≤ Int.ofNat p.1
        simp only [Int.ofNat_eq_coe]
        omega
      · show Int.ofNat p.1 < Int.ofNat l.length
        have := List.fst_lt_of_mem_enum hp
        simp only [Int.ofNat_eq_coe]
        omega
      · rcases hk with hk | hk <;> exact absurd hk (by simp)
    next => exact hinv
  · exact hinv

theorem build_branch_sources_inv (branches : List String) (l : List YaoDetails)
    (db mb : String) : mapInv l (build_branch_sources branches l db mb) := by
  unfold build_branch_sources
  have h0 : mapInv l (fun _ => none) := fun b src h => absurd h (by simp)
  have h1 := addMainYaoSources_inv branches l _ h0
  have h2 := addBianYaoSources_inv branches l _ h1
  dsimp only
  split
  · split
    · exact mapInv_insert l _ _ _ (mapInv_insert l _ _ _ h2 (by
        refine ⟨fun hk => absurd hk (by simp), fun hk => absurd hk (by simp), fun _ => rfl⟩))
        (by refine ⟨fun hk => absurd hk (by simp), fun hk => absurd hk (by simp), fun _ => rfl⟩)
    · exact mapInv_insert l _ _ _ h2 (by
        refine ⟨fun hk => absurd hk (by simp), fun hk => absurd hk (by simp), fun _ => rfl⟩)
  · split
    · exact mapInv_insert l _ _ _ h2 (by
        refine ⟨fun hk => absurd hk (by simp), fun hk => absurd hk (by simp), fun _ => rfl⟩)
    · exact h2

/-- The guarded recheck reduces to the line's flag when the index is a
valid recorded index. -/
theorem recheck_of_get? (l : List YaoDetails) (idx : Int) (y : YaoDetails)
    (h0 : 0 ≤ idx) (hl : idx < Int.ofNat l.length) (hy : l.get? idx.toNat = some y) :
    recheck_not_changing l idx = ! y.is_changing := by
  unfold recheck_not_changing
  rw [if_pos ⟨h0, hl⟩, hy]
  simp

/-- Claim-side center activity (C2's wording): a main-line center must
itself be changing, a changed-line center requires its main line to be
changing, and day/month centers always qualify. -/
def spec_center_active (liu_yao : List YaoDetails) (m : String → Option BranchSource)
    (zhong_shen : String) : Bool :=
  match m zhong_shen with
  | none => false
  | some src =>
    match src.kind with
    | SourceKind.benGuaYao =>
      match liu_yao.get? src.yao_index.toNat with
      | some y => y.is_changing
      | none => false
    | SourceKind.bianYao =>
      match liu_yao.get? src.yao_index.toNat with
      | some y => y.is_changing
      | none => false
    | SourceKind.day => true
    | SourceKind.month => true

/-- Claim-side qualification (C2's wording): all three triad branches are
contributed by allowed sources and the center branch's source is active. -/
def spec_triad_qualifies (liu_yao : List YaoDetails) (day_branch month_branch : String)
    (branches : List String) (zhong_shen : String) : Bool :=
  branches.all (fun b => (build_branch_sources branches liu_yao day_branch month_branch b).isSome)
    && spec_center_active liu_yao
        (build_branch_sources branches liu_yao day_branch month_branch) zhong_shen

/-- Claim-side detector: first triad, in the fixed order, whose three
branches are present with an active center. -/
def spec_san_he_ju (liu_yao : List YaoDetails) (bazi : BaZi) : Option String :=
  san_he_ju_groups.findSome? (fun g =>
    if spec_triad_qualifies liu_yao bazi.day.branch bazi.month.branch g.1 g.2
    then some (g.1.getD 0 "" ++ g.1.getD 1 "" ++ g.1.getD 2 "" ++ "三合局")
    else none)

theorem filter_three_eq_three {p : String → Bool} {b1 b2 b3 : String} :
    (([b1, b2, b3].filter p).length = 3) ↔ (p b1 = true ∧ p b2 = true ∧ p b3 = true) := by
  by_cases h1 : p b1 <;> by_cases h2 : p b2 <;> by_cases h3 : p b3 <;>
    simp [List.filter, h1, h2, h3]

theorem san_he_ju_triad_eq_spec (l : List YaoDetails) (db mb b1 b2 b3 zs : String) :
    san_he_ju_triad l db mb [b1, b2, b3] zs =
      (if spec_triad_qualifies l db mb [b1, b2, b3] zs
       then some (b1 ++ b2 ++ b3 ++ "三合局")
       else none) := by
  have hinv := build_branch_sources_inv [b1, b2, b3] l db mb
  by_cases hcount :
      (([b1, b2, b3].filter
        (fun b => (build_branch_sources [b1, b2, b3] l db mb b).isSome)).length = 3)
  · unfold san_he_ju_triad
    rw [if_pos hcount]
    obtain ⟨hp1, hp2, hp3⟩ := filter_three_eq_three.mp hcount
    have hall : ([b1, b2, b3].all
        (fun b => (build_branch_sources [b1, b2, b3] l db mb b).isSome)) = true := by
      simp [hp1, hp2, hp3]
    have hq : spec_triad_qualifies l db mb [b1, b2, b3] zs =
        spec_center_active l (build_branch_sources [b1, b2, b3] l db mb) zs := by
      unfold spec_triad_qualifies
      rw [hall, Bool.true_and]
    rw [hq]
    rcases hz : build_branch_sources [b1, b2, b3] l db mb zs with _ | src
    · have hcf : spec_center_active l
          (build_branch_sources [b1, b2, b3] l db mb) zs = false := by
        unfold spec_center_active
        simp only [hz]
      rw [hcf]
      simp [hz]
    · obtain ⟨hben, hbian, hdm⟩ := hinv zs src hz
      cases hk : src.kind
      · obtain ⟨y, hy, hic, hb0, hbl⟩ := hben hk
        have hre := recheck_of_get? l src.yao_index y hb0 hbl hy
        have hcenter : spec_center_active l
            (build_branch_sources [b1, b2, b3] l db mb) zs = y.is_changing := by
          unfold spec_center_active
          simp only [hz, hk, hy]
        rw [hcenter]
        by_cases hyc : y.is_changing = true
        · have hic' : src.is_changing = true := by rw [hic, hyc]
          simp [hz, hk, hre, hic', hyc]
        · have hyc' : y.is_changing = false := by
            cases hb : y.is_changing
            · rfl
            · exact absurd hb hyc
          have hic' : src.is_changing = false := by rw [hic, hyc']
          simp [hz, hic', hyc']
      · obtain ⟨hic, y, hy, hyc, hb0, hbl⟩ := hbian hk
        have hre := recheck_of_get? l src.yao_index y hb0 hbl hy
        have hcenter : spec_center_active l
            (build_branch_sources [b1, b2, b3] l db mb) zs = y.is_changing := by
          unfold spec_center_active
          simp only [hz, hk, hy]
        rw [hcenter]
        simp [hz, hk, hre, hic, hyc]
      · have hic := hdm (Or.inl hk)
        have hcenter : spec_center_active l
            (build_branch_sources [b1, b2, b3] l db mb) zs = true := by
          unfold spec_center_active
          simp only [hz, hk]
        rw [hcenter]
        simp [hz, hk, hic]
      · have hic := hdm (Or.inr hk)
        have hcenter : spec_center_active l
            (build_branch_sources [b1, b2, b3] l db mb) zs = true := by
          unfold spec_center_active
          simp only [hz, hk]
        rw [hcenter]
        simp [hz, hk, hic]
  · have hall_false : ([b1, b2, b3].all
        (fun b => (build_branch_sources [b1, b2, b3] l db mb b).isSome)) = false := by
      cases hall : ([b1, b2, b3].all
          (fun b => (build_branch_sources [b1, b2, b3] l db mb b).isSome))
      · rfl
      · exfalso
        simp only [List.all_cons, List.all_nil, Bool.and_eq_true, and_true] at hall
        exact hcount (filter_three_eq_three.mpr ⟨hall.1, hall.2.1, hall.2.2⟩)
    have hq : spec_triad_qualifies l db mb [b1, b2, b3] zs = false := by
      unfold spec_triad_qualifies
      rw [hall_false, Bool.false_and]
    unfold san_he_ju_triad
    rw [if_neg hcount, hq]
    simp

/-- Claim C2: `check_san_he_ju` returns a triad name exactly for the first
triad (in the fixed order 巳酉丑, 申子辰, 亥卯未, 寅午戌) whose three
branches are all contributed by allowed sources and whose center branch's
source is active, and nothing otherwise. -/
theorem check_san_he_ju_eq_spec (liu_yao : List YaoDetails) (bazi : BaZi) :
    check_san_he_ju liu_yao bazi = spec_san_he_ju liu_yao bazi := by
  unfold check_san_he_ju spec_san_he_ju san_he_ju_groups
  dsimp only
  simp only [List.findSome?_cons, List.findSome?_nil]
  rw [san_he_ju_triad_eq_spec, san_he_ju_triad_eq_spec, san_he_ju_triad_eq_spec,
    san_he_ju_triad_eq_spec]
  rfl

/-! ## Theorem for claim C4 -/

/-- The hidden-completion view of a line: hidden pillar, hidden element,
hidden kinship role, and main kinship role. -/
def hview (y : YaoDetails) : Option Pillar × String × String × String :=
  (y.hidden_pillar, y.hidden_element, y.hidden_relative, y.main_relative)

/-- The 纳甲 pillar of position `i` of a hexagram, as computed by
`generate_tian_gan_and_di_zhi`. -/
def naJiaPillar (info : HexagramInfo) (i : Nat) : Pillar :=
  ⟨if i < 3 then (PALACE_STEM_PATTERNS info.inner_hexagram).getD i ""
    else (PALACE_STEM_PATTERNS info.outer_hexagram).getD i "",
   if i < 3 then (PALACE_BRANCH_PATTERNS info.inner_hexagram).getD i ""
    else (PALACE_BRANCH_PATTERNS info.outer_hexagram).getD i ""⟩

/-- Main kinship role determined by a palace element and a pillar, as
computed by `fill_element_and_relative` for the main hexagram. -/
def mrOfPillar (e : String) (op : Option Pillar) : String :=
  match op with
  | some p =>
    match branchFiveElements p.branch with
    | some el => get_relative e el
    | none => "錯誤"
  | none => "錯誤"

/-- The six main kinship roles of a hexagram (a pure function of its
catalog entry). -/
def mainRelList (info : HexagramInfo) : List String :=
  (List.range 6).map (fun i => mrOfPillar info.five_element (some (naJiaPillar info i)))

/-- The hidden-completion views produced by `calculate_hidden_gods`, as a
function of the base palace, the palace element and the main roles. -/
def hiddenHView (base : HexagramInfo) (elem : String) (mrs : List String) :
    List (Option Pillar × String × String × String) :=
  mrs.enum.map (fun p =>
    match branchFiveElements (naJiaPillar base p.1).branch with
    | some he =>
      if validRelative (get_relative elem he) ∧
          get_relative elem he ∉ mrs.filter validRelative
      then (some (naJiaPillar base p.1), he, get_relative elem he, p.2)
      else (none, "", "", p.2)
    | none => (some (naJiaPillar base p.1), "", "", p.2))

/-- The kinship role a position would receive from the main hexagram's
base palace (C4's "role computed for that position"). -/
def hidden_candidate_role (main_info : HexagramInfo) (i : Nat) : String :=
  match palace_code_map main_info.palace_type with
  | some base_code =>
    match hexLookup base_code with
    | some base_info =>
      match branchFiveElements (naJiaPillar base_info i).branch with
      | some e => get_relative main_info.five_element e
      | none => ""
    | none => ""
  | none => ""

/-- The hidden-completion views of a whole hexagram (pure function of its
catalog entry, mirroring step 6 of the pipeline). -/
def hvlOfInfo (info : HexagramInfo) : List (Option Pillar × String × String × String) :=
  match palace_code_map info.palace_type with
  | some bc =>
    match hexLookup bc with
    | some base => hiddenHView base info.five_element (mainRelList info)
    | none => []
  | none => []

/-- C4's invariant over the hidden-completion views: hidden data present
exactly when the position's candidate role is missing among the main
roles; main and hidden roles together cover all five; hidden roles are
pairwise distinct; full main coverage leaves no hidden data. -/
def kinshipInvariantHVL (info : HexagramInfo)
    (hvl : List (Option Pillar × String × String × String)) : Prop :=
  (∀ i : Fin 6, ((hvl.getD i.1 (none, "", "", "")).1.isSome = true ↔
      hidden_candidate_role info i.1 ∉ hvl.map (fun hv => hv.2.2.2))) ∧
  (∀ r ∈ RELATIVE_NAMES, r ∈ hvl.map (fun hv => hv.2.2.2) ∨
      r ∈ (hvl.filter (fun hv => hv.1.isSome)).map (fun hv => hv.2.2.1)) ∧
  ((hvl.filter (fun hv => hv.1.isSome)).map (fun hv => hv.2.2.1)).Nodup ∧
  ((∀ r ∈ RELATIVE_NAMES, r ∈ hvl.map (fun hv => hv.2.2.2)) →
      ∀ hv ∈ hvl, hv.1 = none)

instance kinshipInvariantHVL_decidable (info : HexagramInfo)
    (hvl : List (Option Pillar × String × String × String)) :
    Decidable (kinshipInvariantHVL info hvl) := by
  unfold kinshipInvariantHVL
  infer_instance

/-- The invariant holds for every one of the 64 catalog entries. -/
theorem kinship_all_codes :
    ∀ p ∈ HEXAGRAM_MAP, kinshipInvariantHVL p.2 (hvlOfInfo p.2) := by decide

theorem map_hview_of_pointwise {l : List YaoDetails} {g : YaoDetails → YaoDetails}
    (hg : ∀ y, hview (g y) = hview y) :
    (l.map g).map hview = l.map hview := by
  rw [List.map_map]
  exact List.map_congr_left (fun y _ => hg y)

theorem map_hview_of_enum_pointwise {l : List YaoDetails}
    {g : Nat × YaoDetails → YaoDetails}
    (hg : ∀ p : Nat × YaoDetails, hview (g p) = hview p.2) :
    (l.enum.map g).map hview = l.map hview := by
  rw [List.map_map]
  have h1 : l.enum.map (hview ∘ g) = l.enum.map (fun p => hview p.2) :=
    List.map_congr_left (fun p _ => hg p)
  rw [h1]
  have h2 : l.enum.map (fun p => hview p.2) = (l.enum.map Prod.snd).map hview := by
    rw [List.map_map]
    rfl
  rw [h2, List.enum_map_snd]

theorem hview_msy_yue_peng (ypb : List String) (b : String) (y : YaoDetails) :
    hview (msy_yue_peng ypb b y) = hview y := by
  unfold msy_yue_peng
  split <;> rfl

theorem hview_msy_ri_chong (rcb : List String) (b : String) (y : YaoDetails) :
    hview (msy_ri_chong rcb b y) = hview y := by
  unfold msy_ri_chong
  split <;> rfl

theorem hview_msy_yue_he (mb : String) (yhb : List String) (b : String) (y : YaoDetails) :
    hview (msy_yue_he mb yhb b y) = hview y := by
  unfold msy_yue_he
  repeat' split
  all_goals rfl

theorem hview_msy_ri_he (db : String) (rhb : List String) (b : String) (y : YaoDetails) :
    hview (msy_ri_he db rhb b y) = hview y := by
  unfold msy_ri_he
  repeat' split
  all_goals rfl

theorem hview_msy_an_dong_ri_peng (y : YaoDetails) :
    hview (msy_an_dong_ri_peng y) = hview y := by
  unfold msy_an_dong_ri_peng
  repeat' split
  all_goals rfl

theorem hview_append_markers (b : String) (ssm : List (String × List String))
    (y : YaoDetails) : hview (append_shen_sha_markers b ssm y) = hview y := by
  induction ssm generalizing y with
  | nil => rfl
  | cons e t ih =>
    unfold append_shen_sha_markers at ih ⊢
    simp only [List.foldl_cons]
    refine (ih _).trans ?_
    repeat' split
    all_goals rfl

theorem hview_mark_shen_sha_yao (mb db : String)
    (ypb rcb yhb rhb : List String) (ssm : List (String × List String))
    (y : YaoDetails) :
    hview (mark_shen_sha_yao mb db ypb rcb yhb rhb ssm y) = hview y := by
  unfold mark_shen_sha_yao
  rcases y.main_pillar with _ | p
  · rfl
  · rw [hview_append_markers, hview_msy_an_dong_ri_peng, hview_msy_ri_he,
      hview_msy_yue_he, hview_msy_ri_chong, hview_msy_yue_peng]

theorem hview_mcr_xun_kong (xkb : List String) (cb : String) (y : YaoDetails) :
    hview (mcr_xun_kong xkb cb y) = hview y := by
  unfold mcr_xun_kong
  split <;> rfl

theorem hview_mcr_lin_ri_ri_fu (db cb : String) (y : YaoDetails) :
    hview (mcr_lin_ri_ri_fu db cb y) = hview y := rfl

theorem hview_mcr_ri_sheng_ri_ke (db ce : String) (y : YaoDetails) :
    hview (mcr_ri_sheng_ri_ke db ce y) = hview y := rfl

theorem hview_mcr_yue_peng (ypb : List String) (cb : String) (y : YaoDetails) :
    hview (mcr_yue_peng ypb cb y) = hview y := by
  unfold mcr_yue_peng
  split <;> rfl

theorem hview_mcr_ri_chong (rcb : List String) (cb : String) (y : YaoDetails) :
    hview (mcr_ri_chong rcb cb y) = hview y := by
  unfold mcr_ri_chong
  split <;> rfl

theorem hview_mcr_yue_he (mb : String) (yhb : List String) (cb : String) (y : YaoDetails) :
    hview (mcr_yue_he mb yhb cb y) = hview y := by
  unfold mcr_yue_he
  repeat' split
  all_goals rfl

theorem hview_mcr_ri_he (db : String) (rhb : List String) (cb : String) (y : YaoDetails) :
    hview (mcr_ri_he db rhb cb y) = hview y := by
  unfold mcr_ri_he
  repeat' split
  all_goals rfl

theorem hview_mark_changed_relations (mb db : String)
    (xkb ypb rcb yhb rhb : List String) (y : YaoDetails) :
    hview (mark_changed_relations mb db xkb ypb rcb yhb rhb y) = hview y := by
  unfold mark_changed_relations
  split
  · split
    · rw [hview_mcr_ri_he, hview_mcr_yue_he, hview_mcr_ri_chong, hview_mcr_yue_peng,
        hview_mcr_ri_sheng_ri_ke, hview_mcr_lin_ri_ri_fu, hview_mcr_xun_kong]
    · rfl
  · rfl

theorem hview_mhh_hua (y : YaoDetails) : hview (mhh_hua y) = hview y := by
  unfold mhh_hua
  repeat' split
  all_goals rfl

theorem hview_mhh_hui_tou (y : YaoDetails) : hview (mhh_hui_tou y) = hview y := by
  unfold mhh_hui_tou
  repeat' split
  all_goals rfl

theorem hview_mark_hua_and_hui_tou (y : YaoDetails) :
    hview (mark_hua_and_hui_tou y) = hview y := by
  unfold mark_hua_and_hui_tou
  split
  · rw [hview_mhh_hui_tou, hview_mhh_hua]
  · rfl

theorem map_hview_steps10 (bazi : BaZi) (ssm : List (String × List String))
    (l : List YaoDetails) :
    (six_yao_steps10 bazi ssm l).map hview = l.map hview := by
  unfold six_yao_steps10
  rw [map_hview_of_pointwise hview_mark_hua_and_hui_tou,
    map_hview_of_pointwise (hview_mark_changed_relations _ _ _ _ _ _ _),
    map_hview_of_pointwise (hview_mark_shen_sha_yao _ _ _ _ _ _ _)]

theorem map_hview_step7 (bazi : BaZi) (l : List YaoDetails) :
    (six_yao_step7 bazi l).map hview = l.map hview := by
  unfold six_yao_step7
  dsimp only
  split
  · exact map_hview_of_enum_pointwise (fun p => rfl)
  · exact map_hview_of_pointwise (fun y => rfl)

theorem map_hview_step8 (bazi : BaZi) (l : List YaoDetails) :
    (six_yao_step8 bazi l).map hview = l.map hview := by
  unfold six_yao_step8
  refine map_hview_of_pointwise ?_
  intro y
  dsimp only
  repeat' split
  all_goals rfl

theorem map_hview_step85 (bazi : BaZi) (l : List YaoDetails) :
    (six_yao_step85 bazi l).map hview = l.map hview := by
  unfold six_yao_step85
  refine map_hview_of_pointwise ?_
  intro y
  dsimp only
  repeat' split
  all_goals rfl

/-! Main-role chain: steps 1-5 compute exactly the catalog kinship roles
`mainRelList`, and step 6 turns them into the hidden views `hvlOfInfo`. -/

/-- Projection preservation under a plain map. -/
theorem map_proj_of_pointwise {α : Type} {l : List YaoDetails}
    {g : YaoDetails → YaoDetails} (f : YaoDetails → α)
    (hg : ∀ y, f (g y) = f y) :
    (l.map g).map f = l.map f := by
  rw [List.map_map]
  exact List.map_congr_left (fun y _ => hg y)

/-- Projection preservation under an enumerated map. -/
theorem map_proj_of_enum_pointwise {α : Type} {l : List YaoDetails}
    {g : Nat × YaoDetails → YaoDetails} (f : YaoDetails → α)
    (hg : ∀ p : Nat × YaoDetails, f (g p) = f p.2) :
    (l.enum.map g).map f = l.map f := by
  rw [List.map_map]
  have h1 : l.enum.map (f ∘ g) = l.enum.map (fun p => f p.2) :=
    List.map_congr_left (fun p _ => hg p)
  rw [h1]
  have h2 : l.enum.map (fun p => f p.2) = (l.enum.map Prod.snd).map f := by
    rw [List.map_map]
    rfl
  rw [h2, List.enum_map_snd]

theorem initialize_length (info : HexagramInfo) (ch : List Int) :
    (initialize_yao_details_vector info ch).length = 6 := by
  unfold initialize_yao_details_vector
  simp

/-- `generate_tian_gan_and_di_zhi` with `type_yao = 0` writes exactly the
纳甲 pillars into the main slots. -/
theorem generate0_eq (l : List YaoDetails) (info : HexagramInfo) :
    generate_tian_gan_and_di_zhi l info 0 =
      l.enum.map (fun p => { p.2 with main_pillar := some (naJiaPillar info p.1) }) := rfl

/-- `type_yao = 1` writes the pillars into the changed slots. -/
theorem generate1_eq (l : List YaoDetails) (info : HexagramInfo) :
    generate_tian_gan_and_di_zhi l info 1 =
      l.enum.map (fun p => { p.2 with changed_pillar := some (naJiaPillar info p.1) }) := rfl

/-- `type_yao = 2` writes the pillars into the hidden slots. -/
theorem generate2_eq (l : List YaoDetails) (info : HexagramInfo) :
    generate_tian_gan_and_di_zhi l info 2 =
      l.enum.map (fun p => { p.2 with hidden_pillar := some (naJiaPillar info p.1) }) := rfl

/-- `fill_element_and_relative` on the main hexagram: every line's main
kinship role becomes `mrOfPillar` of its main pillar. -/
theorem fill_true_map_mr (l : List YaoDetails) (e : String) :
    (fill_element_and_relative l e true).map (fun y => y.main_relative) =
      l.map (fun y => mrOfPillar e y.main_pillar) := by
  unfold fill_element_and_relative
  rw [List.map_map]
  refine List.map_congr_left (fun y _ => ?_)
  cases hmp : y.main_pillar with
  | none => simp [mrOfPillar, hmp]
  | some p =>
    cases hbe : branchFiveElements p.branch <;> simp [mrOfPillar, hmp, hbe]

/-- `fill_element_and_relative` on the changed hexagram leaves the main
kinship roles unchanged. -/
theorem fill_false_map_mr (l : List YaoDetails) (e : String) :
    (fill_element_and_relative l e false).map (fun y => y.main_relative) =
      l.map (fun y => y.main_relative) := by
  unfold fill_element_and_relative
  rw [List.map_map]
  refine List.map_congr_left (fun y _ => ?_)
  cases hcp : y.changed_pillar with
  | none => simp [hcp]
  | some p =>
    cases hbe : branchFiveElements p.branch <;> simp [hcp, hbe]

/-- The main roles read off the freshly generated pillars are the catalog
roles, indexed by position. -/
theorem generate0_map_mr (l : List YaoDetails) (info : HexagramInfo) (e : String) :
    (generate_tian_gan_and_di_zhi l info 0).map (fun y => mrOfPillar e y.main_pillar) =
      (List.range l.length).map (fun i => mrOfPillar e (some (naJiaPillar info i))) := by
  rw [generate0_eq, List.map_map, ← List.enum_map_fst l, List.map_map]
  exact List.map_congr_left (fun p _ => rfl)

/-- Steps 1-4 compute exactly the catalog main kinship roles. -/
theorem steps_to_4_map_mr (code : String) (info : HexagramInfo) (ch : List Int) :
    (six_yao_steps_to_4 code info ch).map (fun y => y.main_relative) =
      mainRelList info := by
  unfold six_yao_steps_to_4
  dsimp only
  rw [fill_true_map_mr,
    map_proj_of_enum_pointwise (fun y => mrOfPillar info.five_element y.main_pillar)
      (fun p => by dsimp only; split <;> rfl),
    map_proj_of_enum_pointwise (fun y => mrOfPillar info.five_element y.main_pillar)
      (fun p => by rfl),
    generate0_map_mr, initialize_length]
  rfl

/-- Step 5 leaves the main kinship roles unchanged. -/
theorem step5_map_mr (code : String) (mi : HexagramInfo) (ch : List Int)
    (liu4 liu5 : List YaoDetails) (bc : Option String) (bi : Option HexagramInfo)
    (h : six_yao_step5 code mi ch liu4 = some (liu5, bc, bi)) :
    liu5.map (fun y => y.main_relative) = liu4.map (fun y => y.main_relative) := by
  unfold six_yao_step5 at h
  split at h
  · simp only [Option.some.injEq, Prod.mk.injEq] at h
    rw [← h.1]
  · split at h
    · exact absurd h (by simp)
    next ci hci =>
      simp only [Option.some.injEq, Prod.mk.injEq] at h
      rw [← h.1, fill_false_map_mr, generate1_eq]
      exact map_proj_of_enum_pointwise (fun y => y.main_relative) (fun p => by rfl)

/-- A successful catalog lookup comes from a catalog entry. -/
theorem hexLookup_mem (code : String) (mi : HexagramInfo)
    (h : hexLookup code = some mi) : ∃ p ∈ HEXAGRAM_MAP, p.2 = mi := by
  unfold hexLookup at h
  cases hf : HEXAGRAM_MAP.find? (fun e => e.1 == code) with
  | none => rw [hf] at h; exact absurd h (by simp)
  | some e =>
    rw [hf] at h
    simp only [Option.map_some', Option.some.injEq] at h
    exact ⟨e, List.mem_of_find?_eq_some hf, h⟩

/-- Every catalog entry's palace maps to a base code that is itself in the
catalog. -/
theorem catalog_palace_ok : ∀ p ∈ HEXAGRAM_MAP,
    ((palace_code_map p.2.palace_type).bind hexLookup).isSome = true := by decide

/-- `calculate_hidden_gods` produces exactly the `hiddenHView` of the base
palace, the palace element and the lines' main roles. -/
theorem calc_hidden_hview (base : HexagramInfo) (elem : String) (l : List YaoDetails) :
    (calculate_hidden_gods base elem l).map hview =
      hiddenHView base elem (l.map (fun y => y.main_relative)) := by
  unfold calculate_hidden_gods hiddenHView
  dsimp only
  rw [generate2_eq, List.map_map, List.map_map, List.enum_map, List.map_map]
  refine List.map_congr_left (fun p _ => ?_)
  dsimp only [Function.comp, Prod.map, id]
  cases hbe : branchFiveElements (naJiaPillar base p.1).branch with
  | none => simp [hview, hbe]
  | some he =>
    simp only [hview, hbe]
    split <;> rfl

/-- Step 6 under a well-formed palace: the hidden views become exactly the
catalog's `hvlOfInfo`. -/
theorem step6_map_hview (info : HexagramInfo) (liu5 liu6 : List YaoDetails)
    (h : six_yao_step6 info liu5 = some liu6)
    (hpal : ((palace_code_map info.palace_type).bind hexLookup).isSome = true)
    (hmr : liu5.map (fun y => y.main_relative) = mainRelList info) :
    liu6.map hview = hvlOfInfo info := by
  unfold six_yao_step6 at h
  unfold hvlOfInfo
  split at h
  next bc hbc =>
    split at h
    next base hbase =>
      simp only [Option.some.injEq] at h
      rw [← h, calc_hidden_hview, hmr]
      try simp only [hbc]
      try simp only [hbase]
      try rfl
    next hbase => exact absurd h (by simp)
  next hbc =>
    rw [hbc] at hpal
    simp at hpal

/-- Transfer of the invariant from the hidden views to the record fields. -/
theorem kinshipInvariant_fields (info : HexagramInfo) (yaos : List YaoDetails)
    (hinv : kinshipInvariantHVL info (yaos.map hview)) :
    (∀ i : Fin 6, ∀ y, yaos[i.1]? = some y →
        (y.hidden_pillar.isSome = true ↔
          hidden_candidate_role info i.1 ∉ yaos.map (fun z => z.main_relative))) ∧
    (∀ r ∈ RELATIVE_NAMES, r ∈ yaos.map (fun z => z.main_relative) ∨
        r ∈ (yaos.filter (fun z => z.hidden_pillar.isSome)).map
          (fun z => z.hidden_relative)) ∧
    ((yaos.filter (fun z => z.hidden_pillar.isSome)).map
      (fun z => z.hidden_relative)).Nodup ∧
    ((∀ r ∈ RELATIVE_NAMES, r ∈ yaos.map (fun z => z.main_relative)) →
        ∀ y ∈ yaos, y.hidden_pillar = none) := by
  obtain ⟨h1, h2, h3, h4⟩ := hinv
  have hmr : (yaos.map hview).map (fun hv => hv.2.2.2) =
      yaos.map (fun z => z.main_relative) := by
    rw [List.map_map]
    rfl
  have hfil : ((yaos.map hview).filter (fun hv => hv.1.isSome)).map
      (fun hv => hv.2.2.1) =
      (yaos.filter (fun z => z.hidden_pillar.isSome)).map
        (fun z => z.hidden_relative) := by
    rw [List.filter_map, List.map_map]
    rfl
  refine ⟨?_, ?_, ?_, ?_⟩
  · intro i y hy
    have h := h1 i
    rw [hmr, List.getD_eq_getElem?_getD, List.getElem?_map, hy] at h
    exact h
  · intro r hr
    rcases h2 r hr with h | h
    · left
      rwa [hmr] at h
    · right
      rwa [hfil] at h
  · rwa [hfil] at h3
  · intro hcov y hy
    exact h4 (by rw [hmr]; exact hcov) (hview y) (List.mem_map_of_mem hview hy)

/-- Claim C4: in every completed divination, a line's hidden pillar is
present iff the kinship role its position would receive from the main
hexagram's base palace is absent among the six main-line roles; every one
of the five kinship roles appears among the main roles or the present
hidden roles; the present hidden roles are pairwise distinct; and when the
main lines alone cover all five roles, no line carries hidden data. -/
theorem hidden_kinship_completion (code : String) (bazi : BaZi) (ch : List Int)
    (yaos : List YaoDetails) (res : DivinationSummary)
    (h : six_yao_divination code bazi ch = some (yaos, res)) :
    (∀ i : Fin 6, ∀ y, yaos[i.1]? = some y →
        (y.hidden_pillar.isSome = true ↔
          hidden_candidate_role res.ben_gua_info i.1 ∉
            yaos.map (fun z => z.main_relative))) ∧
    (∀ r ∈ RELATIVE_NAMES, r ∈ yaos.map (fun z => z.main_relative) ∨
        r ∈ (yaos.filter (fun z => z.hidden_pillar.isSome)).map
          (fun z => z.hidden_relative)) ∧
    ((yaos.filter (fun z => z.hidden_pillar.isSome)).map
      (fun z => z.hidden_relative)).Nodup ∧
    ((∀ r ∈ RELATIVE_NAMES, r ∈ yaos.map (fun z => z.main_relative)) →
        ∀ y ∈ yaos, y.hidden_pillar = none) := by
  obtain ⟨mi, liu5, bc, bi, liu6, ssm, hmi, h5, h6, h9, hy, hr⟩ :=
    six_yao_divination_unfold code bazi ch yaos res h
  obtain ⟨p, hp, hpmi⟩ := hexLookup_mem code mi hmi
  have hpal : ((palace_code_map mi.palace_type).bind hexLookup).isSome = true := by
    rw [← hpmi]
    exact catalog_palace_ok p hp
  have hmr5 : liu5.map (fun y => y.main_relative) = mainRelList mi := by
    rw [step5_map_mr code mi ch _ liu5 bc bi h5, steps_to_4_map_mr]
  have h6v : liu6.map hview = hvlOfInfo mi := step6_map_hview mi liu5 liu6 h6 hpal hmr5
  have hyv : yaos.map hview = hvlOfInfo mi := by
    rw [hy, map_hview_steps10, map_hview_step85, map_hview_step8, map_hview_step7, h6v]
  have hinv : kinshipInvariantHVL mi (yaos.map hview) := by
    rw [hyv, ← hpmi]
    exact kinship_all_codes p hp
  have hben : res.ben_gua_info = mi := by rw [hr]
  rw [hben]
  exact kinshipInvariant_fields mi yaos hinv

/-- Witness for C4: a concrete divination over 天風姤 (code 011111), whose
main lines miss the 妻財 role and receive it from a hidden line. -/
theorem hidden_kinship_completion_witness :
    ∃ yaos res, six_yao_divination "011111" bzEx [] = some (yaos, res) ∧
      ((∀ i : Fin 6, ∀ y, yaos[i.1]? = some y →
          (y.hidden_pillar.isSome = true ↔
            hidden_candidate_role res.ben_gua_info i.1 ∉
              yaos.map (fun z => z.main_relative))) ∧
      (∀ r ∈ RELATIVE_NAMES, r ∈ yaos.map (fun z => z.main_relative) ∨
          r ∈ (yaos.filter (fun z => z.hidden_pillar.isSome)).map
            (fun z => z.hidden_relative)) ∧
      ((yaos.filter (fun z => z.hidden_pillar.isSome)).map
        (fun z => z.hidden_relative)).Nodup ∧
      ((∀ r ∈ RELATIVE_NAMES, r ∈ yaos.map (fun z => z.main_relative)) →
          ∀ y ∈ yaos, y.hidden_pillar = none)) := by
  refine ⟨_, _, rfl, ?_⟩
  exact hidden_kinship_completion "011111" bzEx [] _ _ rfl

end LiuYao
